import Mathlib

/-!
# Verification of the GalaxyTraderMK3 single-pass log analyzer

A shallow embedding of the single-pass streaming log classifier and
aggregator of `tools/gt_bug_report.py` (function `analyze_log`), of the
ship-id extractor of `tools/gt_log_utils.py` (`extract_ship_id`), and of
the health-check threshold evaluation that consumes the final aggregate
state.

Modelling conventions:

* A log line is a `List Char` (one line of the input file; the analyzer
  first right-strips it, which is modelled by `rstrip`).
* The compiled regular expressions of the source are modelled by
  executable matcher functions over `List Char`.  Each matcher documents
  the regex it embeds.  Greedy character-class repetitions (`\d+`,
  `[\d.]+`, `\s+`) are translated as maximal munch, which is equivalent
  to the backtracking semantics here because in every pattern of the
  source the following token can never start with a character of the
  preceding class.  `.*` (which cannot cross a newline; lines contain
  none) followed by a tail pattern is translated as "the tail matches at
  some later position", again equivalent to the backtracking semantics.
  `\b` is translated according to the word-ness of the adjacent literal
  characters.  Character classes are the ASCII ones; the concrete inputs
  of the log format are ASCII.
* Python floats parsed from the `\d+\.\d+` timestamps are modelled as
  exact decimal fractions `DecNum` (value `num / 10 ^ exp`), with proved
  characterization lemmas relating the executable comparisons to their
  rational values (`DecNum.toRat`).  The trade-success percentage is
  likewise treated as an exact rational.
* Aggregate state pieces that no claim mentions and that feed only the
  report rendering (home-sector set, `funds_events_per_ship` money
  tuples, `money_at_blocks`, first/last funds-block timestamps, the raw
  log tail) are not carried in the state; every counter, set, map and
  bounded buffer named by a claim is embedded faithfully, in the update
  order of the source.
-/

/-! ## Exact decimal numbers (Python floats of the log timestamps) -/

/-- An exact decimal fraction with value `num / 10 ^ exp`.  This is the
model of the timestamp floats parsed from the log. -/
structure DecNum where
  num : ℤ
  exp : ℕ
  deriving DecidableEq, Repr

/-- The rational value of a decimal number. -/
def DecNum.toRat (d : DecNum) : ℚ := (d.num : ℚ) / (10 ^ d.exp : ℕ)

/-- Executable `≤` on decimal numbers (cross multiplication). -/
def DecNum.le (a b : DecNum) : Bool := decide (a.num * 10 ^ b.exp ≤ b.num * 10 ^ a.exp)

/-- Executable subtraction of a natural constant (`last_ts - 300`). -/
def DecNum.subN (a : DecNum) (n : ℕ) : DecNum := ⟨a.num - n * 10 ^ a.exp, a.exp⟩

/-- Executable zero test (Python float truthiness: `0.0` is falsy). -/
def DecNum.isZero (a : DecNum) : Bool := a.num == 0

/-- Executable positivity test (`last_ts > 0`). -/
def DecNum.isPos (a : DecNum) : Bool := decide (0 < a.num)

/-- Executable maximum (`last_ts = max(last_ts, ts)`). -/
def DecNum.dmax (a b : DecNum) : DecNum := if DecNum.le a b then b else a

/-- The decimal number `0.0`. -/
def DecNum.zero : DecNum := ⟨0, 0⟩

theorem DecNum.le_iff (a b : DecNum) : DecNum.le a b = true ↔ a.toRat ≤ b.toRat := by
  rw [DecNum.le, decide_eq_true_eq, DecNum.toRat, DecNum.toRat,
    div_le_div_iff₀ (by positivity) (by positivity)]
  push_cast
  constructor <;> intro h <;> exact_mod_cast h

theorem DecNum.subN_toRat (a : DecNum) (n : ℕ) : (a.subN n).toRat = a.toRat - n := by
  rw [DecNum.subN, DecNum.toRat, DecNum.toRat]
  field_simp
  ring

theorem DecNum.isZero_iff (a : DecNum) : a.isZero = true ↔ a.toRat = 0 := by
  rw [DecNum.isZero, beq_iff_eq, DecNum.toRat, div_eq_zero_iff]
  constructor
  · intro h; left; exact_mod_cast h
  · rintro (h | h)
    · exact_mod_cast h
    · exfalso; revert h; positivity

theorem DecNum.isPos_iff (a : DecNum) : a.isPos = true ↔ 0 < a.toRat := by
  rw [DecNum.isPos, decide_eq_true_eq, DecNum.toRat, lt_div_iff₀ (by positivity)]
  simp only [zero_mul]
  exact ⟨fun h => by exact_mod_cast h, fun h => by exact_mod_cast h⟩

theorem DecNum.dmax_toRat (a b : DecNum) : (a.dmax b).toRat = max a.toRat b.toRat := by
  rw [DecNum.dmax]
  split_ifs with h
  · rw [max_eq_right ((DecNum.le_iff a b).mp h)]
  · have h2 : ¬ a.toRat ≤ b.toRat := fun hc => h ((DecNum.le_iff a b).mpr hc)
    rw [max_eq_left (le_of_not_le h2)]

theorem DecNum.zero_toRat : DecNum.zero.toRat = 0 := by
  rw [DecNum.zero, DecNum.toRat]
  norm_num

/-! ## Character classes and the matcher engine -/

/-- Python's `\w` word character over the ASCII inputs of the log. -/
def isWordChar (c : Char) : Bool := c.isAlphanum || c == '_'

/-- Python's `[A-Z]`. -/
def isUpperAZ (c : Char) : Bool := 'A' ≤ c && c ≤ 'Z'

/-- `str.rstrip()`: drop trailing whitespace. -/
def rstrip (s : List Char) : List Char := (s.reverse.dropWhile Char.isWhitespace).reverse

/-- A matcher consumes a prefix of the input and returns the remaining
suffix on success (the translation unit for one regex element). -/
abbrev Mt := List Char → Option (List Char)

/-- Match a literal character sequence. -/
def dropPre : List Char → List Char → Option (List Char)
  | [], s => some s
  | _, [] => none
  | p :: ps, c :: cs => if p = c then dropPre ps cs else none

/-- Case-insensitive literal match (for patterns compiled with `re.I`). -/
def dropPreCI : List Char → List Char → Option (List Char)
  | [], s => some s
  | _, [] => none
  | p :: ps, c :: cs => if p.toLower = c.toLower then dropPreCI ps cs else none

/-- Matcher for a literal. -/
def mlit (pat : List Char) : Mt := fun s => dropPre pat s

/-- Matcher for a case-insensitive literal. -/
def mlitCI (pat : List Char) : Mt := fun s => dropPreCI pat s

/-- Sequencing of matchers. -/
def mthen (a b : Mt) : Mt := fun s => (a s).bind b

/-- `\s+` (one or more whitespace, maximal munch). -/
def mws1 : Mt
  | [] => none
  | c :: t => if c.isWhitespace then some (t.dropWhile Char.isWhitespace) else none

/-- `\s*` (maximal munch). -/
def mwsStar : Mt := fun s => some (s.dropWhile Char.isWhitespace)

/-- `\d+` (maximal munch). -/
def mdigits1 : Mt
  | [] => none
  | c :: t => if c.isDigit then some (t.dropWhile Char.isDigit) else none

/-- A digit or a dot (the class `[\d.]`). -/
def isDigitDot (c : Char) : Bool := c.isDigit || c == '.'

/-- `[\d.]+` (maximal munch). -/
def mdigitsDot1 : Mt
  | [] => none
  | c :: t => if isDigitDot c then some (t.dropWhile isDigitDot) else none

/-- `\b` directly after a word character: the next character must be a
non-word character, or the input must end here. -/
def mEndB : Mt
  | [] => some []
  | c :: t => if isWordChar c then none else some (c :: t)

/-- `\b` directly after a non-word character: the next character must be
a word character. -/
def mWordB : Mt
  | [] => none
  | c :: t => if isWordChar c then some (c :: t) else none

/-- `.*` followed by `m`: try `m` at this and every later position
(leftmost success). -/
def mskip (m : Mt) : List Char → Option (List Char)
  | [] => none
  | c :: t =>
    match m (c :: t) with
    | some r => some r
    | none => mskip m t

/-- `re.search` of a pattern with no leading anchor or `\b`. -/
def msearch (m : Mt) (s : List Char) : Bool := (mskip m s).isSome

/-- `re.search` of a pattern starting with `\b` followed by a word
character: try `m` at every position whose previous character is not a
word character (`prevW` tracks the word-ness of the previous character;
at the very start of the line it is `false`). -/
def scanB (m : Mt) : Bool → List Char → Bool
  | _, [] => false
  | prevW, c :: t => (!prevW && (m (c :: t)).isSome) || scanB m (isWordChar c) t

/-- Leftmost scan returning the value produced by a positional attempt
function (used by the capturing ship-id and timestamp extractors). -/
def scanFor {α : Type} (att : List Char → Option α) : List Char → Option α
  | [] => none
  | c :: t =>
    match att (c :: t) with
    | some v => some v
    | none => scanFor att t

/-- Substring test (`pat in s` / an unanchored literal regex). -/
def hasSub (pat : String) (s : List Char) : Bool := msearch (mlit pat.toList) s

/-- Alternation of two literals followed by a continuation
(`(?:BUY|SELL)…`). -/
def altThen (p1 p2 : List Char) (k : Mt) : Mt := fun s =>
  match dropPre p1 s with
  | some r => k r
  | none =>
    match dropPre p2 s with
    | some r => k r
    | none => none

/-! ## The compiled patterns of `gt_bug_report.py` -/

/-- `RE_GT_TAG = r"\[GT-"`. -/
def reGtTag (s : List Char) : Bool := hasSub "[GT-" s

/-- `RE_ERROR_LINE = r"\[=ERROR=\]"`. -/
def reErrorLine (s : List Char) : Bool := hasSub "[=ERROR=]" s

/-- `RE_PROP_LOOKUP = r"Property lookup failed"` with `re.I`. -/
def rePropLookup (s : List Char) : Bool := msearch (mlitCI "Property lookup failed".toList) s

/-- `RE_CRITICAL = r"CRITICAL|EXCEPTION"` with `re.I`. -/
def reCritical (s : List Char) : Bool :=
  msearch (mlitCI "CRITICAL".toList) s || msearch (mlitCI "EXCEPTION".toList) s

/-- The `^\[=ERROR=\]` anchor shared by most `RE_FALSE_ERROR`
alternatives: the stripped line must start with the error tag. -/
def errTagPre (s : List Char) : Option (List Char) := dropPre "[=ERROR=]".toList s

/-- `RE_FALSE_ERROR` alternative `={10,}`: ten or more consecutive `=`
anywhere in the line. -/
def feSeparator (s : List Char) : Bool := hasSub "==========" s

/-- `RE_FALSE_ERROR` alternatives `^\[=ERROR=\].*PAT` for a plain
literal `PAT`. -/
def feTagThen (pat : String) (s : List Char) : Bool :=
  match errTagPre s with
  | some r => msearch (mlit pat.toList) r
  | none => false

/-- `RE_FALSE_ERROR` alternative `^\[=ERROR=\].*\bInit$`: the line
starts with the error tag, ends in `Init`, and the character before that
final `Init` is not a word character (given the 9-character tag prefix,
such a final `Init` always lies after the tag). -/
def feInit (s : List Char) : Bool :=
  (errTagPre s).isSome &&
    (match s.reverse with
     | 't' :: 'i' :: 'n' :: 'I' :: c :: _ => !isWordChar c
     | _ => false)

/-- `\bWORD\s+WORD2` search (used by the `Module loaded` and
`Registered event` alternatives). -/
def feWordWsWord (w1 w2 : String) (s : List Char) : Bool :=
  scanB (mthen (mlit w1.toList) (mthen mws1 (mlit w2.toList))) false s

/-- `RE_FALSE_ERROR`, the curated denylist of benign `[=ERROR=]` lines:
separator rules, GT Lua module loading, GT context-menu integration, mod
init announcements, module-load announcements, registration notices,
usage hints, expected duplicate MD scripts and addons, missing signature
files, restricted function notices. -/
def reFalseError (s : List Char) : Bool :=
  feSeparator s
  || feTagThen "[GT-Mods-Lua]" s
  || feTagThen "[GT Context" s
  || feInit s
  || ((errTagPre s).isSome && feWordWsWord "Module" "loaded" s)
  || ((errTagPre s).isSome && feWordWsWord "Registered" "event" s)
  || ((errTagPre s).isSome && scanB (mlit "To use:".toList) false s)
  || ((errTagPre s).isSome && scanB (mthen (mlit "Skipping MD file".toList) mEndB) false s)
  || ((errTagPre s).isSome && scanB (mthen (mlit "Duplicate addon".toList) mEndB) false s)
  || ((errTagPre s).isSome && scanB (mthen (mlit "Could not find signature file".toList) mEndB) false s)
  || ((errTagPre s).isSome && scanB (mthen (mlit "Restricted function".toList) mEndB) false s)

/-- `RE_REQUEST = r"SENDING GT_Find_(?:Trade|Sell)\b"`. -/
def reRequest (s : List Char) : Bool :=
  msearch (mthen (mlit "SENDING GT_Find_".toList)
    (altThen "Trade".toList "Sell".toList mEndB)) s

/-- `RE_ORDER_CREATED = r"\bCreated (?:BUY|SELL) trade order\b|\bTrade orders created:\b|\bexecuting trade\b"`.
Note the second alternative demands a word character right after the
colon (a `\b` after a non-word character). -/
def reOrderCreated (s : List Char) : Bool :=
  scanB (mthen (mlit "Created ".toList)
    (altThen "BUY".toList "SELL".toList (mthen (mlit " trade order".toList) mEndB))) false s
  || scanB (mthen (mlit "Trade orders created:".toList) mWordB) false s
  || scanB (mthen (mlit "executing trade".toList) mEndB) false s

/-- `RE_NO_TRADE = r"GT_No_Trade_Found\b"`. -/
def reNoTrade (s : List Char) : Bool :=
  msearch (mthen (mlit "GT_No_Trade_Found".toList) mEndB) s

/-- `RE_TIMEOUT = r"MD system response timeout\b"`. -/
def reTimeout (s : List Char) : Bool :=
  msearch (mthen (mlit "MD system response timeout".toList) mEndB) s

/-- `RE_ALL_REJECTED = r"\bALL\s+\d+\s+trades.*were rejected"`. -/
def reAllRejected (s : List Char) : Bool :=
  scanB (mthen (mlit "ALL".toList) (mthen mws1 (mthen mdigits1 (mthen mws1
    (mthen (mlit "trades".toList) (mskip (mlit "were rejected".toList))))))) false s

/-- `RE_QUEUE_BUSY = r"Live search busy\s+\(active:\s+\d+/\d+\)\s+-\s+QUEUING"`. -/
def reQueueBusy (s : List Char) : Bool :=
  msearch (mthen (mlit "Live search busy".toList) (mthen mws1 (mthen (mlit "(active:".toList)
    (mthen mws1 (mthen mdigits1 (mthen (mlit "/".toList) (mthen mdigits1
    (mthen (mlit ")".toList) (mthen mws1 (mthen (mlit "-".toList)
    (mthen mws1 (mlit "QUEUING".toList)))))))))))) s

/-- `RE_HOME_DENY = r"Home-sector live refresh already active.*denying live search"`. -/
def reHomeDeny (s : List Char) : Bool :=
  msearch (mthen (mlit "Home-sector live refresh already active".toList)
    (mskip (mlit "denying live search".toList))) s

/-- `RE_LOCK_ACQ = r"\[GT-Lock\].*LOCK ACQUIRED"`. -/
def reLockAcq (s : List Char) : Bool :=
  msearch (mthen (mlit "[GT-Lock]".toList) (mskip (mlit "LOCK ACQUIRED".toList))) s

/-- `RE_LOCK_REL = r"\[GT-Lock\].*LOCK RELEASED"`. -/
def reLockRel (s : List Char) : Bool :=
  msearch (mthen (mlit "[GT-Lock]".toList) (mskip (mlit "LOCK RELEASED".toList))) s

/-- `RE_BEST_TRADE_SEL = r"BEST TRADE SELECTED:"`. -/
def reBestTradeSel (s : List Char) : Bool := hasSub "BEST TRADE SELECTED:" s

/-- `RE_CLAIM_SWITCH = r"\[GT-Fleet\].*Best trade was already reserved.*switched"`. -/
def reClaimSwitch (s : List Char) : Bool :=
  msearch (mthen (mlit "[GT-Fleet]".toList)
    (mskip (mthen (mlit "Best trade was already reserved".toList)
      (mskip (mlit "switched".toList))))) s

/-- `RE_THREAT = r"\[GT-Threat\]|\[GT-Blacklist\]|CRITICAL THREAT|Ship destruction ignored"`. -/
def reThreat (s : List Char) : Bool :=
  hasSub "[GT-Threat]" s || hasSub "[GT-Blacklist]" s
  || hasSub "CRITICAL THREAT" s || hasSub "Ship destruction ignored" s

/-- `RE_SHIP_DESTROYED = r"CRITICAL THREAT|Ship destruction"`. -/
def reShipDestroyed (s : List Char) : Bool :=
  hasSub "CRITICAL THREAT" s || hasSub "Ship destruction" s

/-- `[\d.]+\s*Cr` (the money-amount tail shared by the funds patterns). -/
def mMoneyCr : Mt := mthen mdigitsDot1 (mthen mwsStar (mlit "Cr".toList))

/-- `RE_BLOCKED_EARLY_REJECT`: `BLOCKED trade \(early reject\).*player\.money=[\d.]+\s*Cr.*purchaseCost=[\d.]+\s*Cr.*MinPlayerMoney.*\([\d.]+\s*Cr\)`
(the numeric captures feed only the report rendering and are not kept). -/
def reBlockedEarlyReject (s : List Char) : Bool :=
  msearch (mthen (mlit "BLOCKED trade (early reject)".toList)
    (mskip (mthen (mlit "player.money=".toList) (mthen mMoneyCr
      (mskip (mthen (mlit "purchaseCost=".toList) (mthen mMoneyCr
        (mskip (mthen (mlit "MinPlayerMoney".toList)
          (mskip (mthen (mlit "(".toList) (mthen mdigitsDot1
            (mthen mwsStar (mlit "Cr)".toList)))))))))))))) s

/-- `RE_BLOCKED_AUTH_GUARD`: as above with `\(authoritative guard\)`. -/
def reBlockedAuthGuard (s : List Char) : Bool :=
  msearch (mthen (mlit "BLOCKED trade (authoritative guard)".toList)
    (mskip (mthen (mlit "player.money=".toList) (mthen mMoneyCr
      (mskip (mthen (mlit "purchaseCost=".toList) (mthen mMoneyCr
        (mskip (mthen (mlit "MinPlayerMoney".toList)
          (mskip (mthen (mlit "(".toList) (mthen mdigitsDot1
            (mthen mwsStar (mlit "Cr)".toList)))))))))))))) s

/-- `RE_EARLY_MONEY_GATE = r"EARLY MONEY GATE.*player money=[\d.]+\s*Cr.*threshold=[\d.]+\s*Cr"`. -/
def reEarlyMoneyGate (s : List Char) : Bool :=
  msearch (mthen (mlit "EARLY MONEY GATE".toList)
    (mskip (mthen (mlit "player money=".toList) (mthen mMoneyCr
      (mskip (mthen (mlit "threshold=".toList) mMoneyCr)))))) s

/-- `RE_SHIP_MONEY_CAP_SKIP = r"SHIP MONEY CAP:.*player money=[\d.]+\s*Cr.*last block \([\d.]+\s*Cr\)"`. -/
def reShipMoneyCapSkip (s : List Char) : Bool :=
  msearch (mthen (mlit "SHIP MONEY CAP:".toList)
    (mskip (mthen (mlit "player money=".toList) (mthen mMoneyCr
      (mskip (mthen (mlit "last block (".toList) (mthen mdigitsDot1
        (mthen mwsStar (mlit "Cr)".toList))))))))) s

/-- `RE_SHIP_MONEY_CAP_CLEARED = r"SHIP MONEY CAP CLEARED"`. -/
def reShipMoneyCapCleared (s : List Char) : Bool := hasSub "SHIP MONEY CAP CLEARED" s

/-- `RE_INSUFFICIENT_FUNDS_WAIT = r"insufficient funds - waiting\s+[\d.]+-[\d.]+s"`. -/
def reInsufficientFundsWait (s : List Char) : Bool :=
  msearch (mthen (mlit "insufficient funds - waiting".toList) (mthen mws1
    (mthen mdigitsDot1 (mthen (mlit "-".toList) (mthen mdigitsDot1 (mlit "s".toList)))))) s

/-- The mod-relevance gate of the pass:
`if not RE_GT_TAG.search(stripped) and "GT_Find_" not in stripped and
"GT_No_Trade" not in stripped and "GT_Trade" not in stripped: continue`.
A line is processed further exactly when one of the four is present. -/
def gateGT (s : List Char) : Bool :=
  reGtTag s || hasSub "GT_Find_" s || hasSub "GT_No_Trade" s || hasSub "GT_Trade" s

/-! ## Ship-id extraction (`gt_log_utils.py`) -/

/-- `[A-Z]{3}-\d{3}` at the current position: returns the seven captured
characters and the rest of the input. -/
def shipIdAt (s : List Char) : Option (List Char × List Char) :=
  match s with
  | a :: b :: c :: h :: d :: e :: f :: rest =>
    if isUpperAZ a && isUpperAZ b && isUpperAZ c && h == '-'
        && d.isDigit && e.isDigit && f.isDigit then
      some ([a, b, c, h, d, e, f], rest)
    else none
  | _ => none

/-- Positional attempt for `RE_SHIP_ID_GTAI = r"\[GT-AI\]\s+([A-Z]{3}-\d{3})\b"`. -/
def shipGtaiAt (s : List Char) : Option (List Char) :=
  match dropPre "[GT-AI]".toList s with
  | none => none
  | some r1 =>
    match mws1 r1 with
    | none => none
    | some r2 =>
      match shipIdAt r2 with
      | some (v, rest) => if (mEndB rest).isSome then some v else none
      | none => none

/-- Positional attempt for `RE_SHIP_ID_PAREN = r"\(([A-Z]{3}-\d{3})\)"`. -/
def shipParenAt (s : List Char) : Option (List Char) :=
  match s with
  | '(' :: t =>
    (match shipIdAt t with
     | some (v, rest) =>
       (match rest with
        | ')' :: _ => some v
        | _ => none)
     | none => none)
  | _ => none

/-- Positional attempt for `RE_SHIP_ID_ATTR = r"Ship=([A-Z]{3}-\d{3})"`
(note: no trailing `\b` in this pattern). -/
def shipAttrAt (s : List Char) : Option (List Char) :=
  match dropPre "Ship=".toList s with
  | some r =>
    (match shipIdAt r with
     | some (v, _) => some v
     | none => none)
  | none => none

/-- `RE_SHIP_ID_GTAI.search`, returning the capture of the leftmost match. -/
def searchShipGtai : List Char → Option (List Char) := scanFor shipGtaiAt

/-- `RE_SHIP_ID_PAREN.search`, returning the capture of the leftmost match. -/
def searchShipParen : List Char → Option (List Char) := scanFor shipParenAt

/-- `RE_SHIP_ID_ATTR.search`, returning the capture of the leftmost match. -/
def searchShipAttr : List Char → Option (List Char) := scanFor shipAttrAt

/-- `RE_SHIP_ID.search` for `r"\b([A-Z]{3}-\d{3})\b"`: the leading `\b`
needs the previous character to be a non-word character (tracked in the
accumulator, `false` at the start of the line). -/
def searchShipBare : Bool → List Char → Option (List Char)
  | _, [] => none
  | prevW, c :: t =>
    match (if prevW then none else
            match shipIdAt (c :: t) with
            | some (v, rest) => if (mEndB rest).isSome then some v else none
            | none => none) with
    | some v => some v
    | none => searchShipBare (isWordChar c) t

/-- `extract_ship_id` of `gt_log_utils.py`: try the four patterns in
priority order, returning the first capture. -/
def extract_ship_id (s : List Char) : Option (List Char) :=
  match searchShipGtai s with
  | some v => some v
  | none =>
    match searchShipParen s with
    | some v => some v
    | none =>
      match searchShipAttr s with
      | some v => some v
      | none => searchShipBare false s

/-! ## Timestamp extraction (`RE_TS_FLOAT`) -/

/-- Numeric value of a digit string. -/
def digitsToNat (l : List Char) : ℕ := l.foldl (fun n c => n * 10 + (c.toNat - 48)) 0

/-- The decimal value of the two captured digit runs of `\d+\.\d+`
(`float(m.group(1))`, modelled exactly). -/
def decOfDigits (ip fp : List Char) : DecNum :=
  ⟨(digitsToNat ip * 10 ^ fp.length + digitsToNat fp : ℕ), fp.length⟩

/-- Positional attempt for
`RE_TS_FLOAT = r"\[Scripts\]\s+(\d+\.\d+)\s+\*\*\*"`. -/
def tsAt (s : List Char) : Option DecNum :=
  match dropPre "[Scripts]".toList s with
  | none => none
  | some r1 =>
    match r1 with
    | [] => none
    | c :: r2 =>
      if c.isWhitespace then
        let r3 := r2.dropWhile Char.isWhitespace
        let ip := r3.takeWhile Char.isDigit
        let r4 := r3.dropWhile Char.isDigit
        if ip.isEmpty then none
        else
          match r4 with
          | '.' :: r5 =>
            let fp := r5.takeWhile Char.isDigit
            let r6 := r5.dropWhile Char.isDigit
            if fp.isEmpty then none
            else
              match r6 with
              | [] => none
              | c2 :: r7 =>
                if c2.isWhitespace then
                  match dropPre "***".toList (r7.dropWhile Char.isWhitespace) with
                  | some _ => some (decOfDigits ip fp)
                  | none => none
                else none
          | _ => none
      else none

/-- `RE_TS_FLOAT.search(stripped)` with `float()` applied to the capture
of the leftmost match. -/
def extractTs : List Char → Option DecNum := scanFor tsAt

/-! ## Small aggregate-state containers -/

/-- Lookup in a `Counter`-like association list (missing key counts 0). -/
def cntOf : List (List Char × ℕ) → List Char → ℕ
  | [], _ => 0
  | (k, v) :: rest, q => if k = q then v else cntOf rest q

/-- `Counter[key] += 1`. -/
def bumpCnt : List (List Char × ℕ) → List Char → List (List Char × ℕ)
  | [], q => [(q, 1)]
  | (k, v) :: rest, q => if k = q then (k, v + 1) :: rest else (k, v) :: bumpCnt rest q

/-- `dict[key] = value` (overwrite or insert). -/
def setKV : List (List Char × DecNum) → List Char → DecNum → List (List Char × DecNum)
  | [], q, v => [(q, v)]
  | (k, x) :: rest, q, v => if k = q then (q, v) :: rest else (k, x) :: setKV rest q v

/-- The keys of an association list, in insertion order. -/
def keysOf (m : List (List Char × DecNum)) : List (List Char) := m.map Prod.fst

/-- `set.add` (insert if new, keeping insertion order). -/
def insertNew (l : List (List Char)) (q : List Char) : List (List Char) :=
  if q ∈ l then l else l ++ [q]

/-- Append to a bounded sample buffer:
`if len(buf) < cap: buf.append(x)` — overflow is silently dropped. -/
def pushCap (cap : ℕ) (buf : List (List Char)) (x : List Char) : List (List Char) :=
  if buf.length < cap then buf ++ [x] else buf

/-- `ts or 0.0` (Python truthiness: `None` and `0.0` give `0.0`). -/
def tsOr0 : Option DecNum → DecNum
  | some t => if t.isZero then DecNum.zero else t
  | none => DecNum.zero

/-- The recency guard of every `recent_*` update site:
`ts and last_ts > 0 and ts >= last_ts - 300`, evaluated with the running
maximum timestamp `m` already updated by the current line. -/
def recentOk (ts? : Option DecNum) (m : DecNum) : Bool :=
  match ts? with
  | none => false
  | some t => !t.isZero && m.isPos && DecNum.le (m.subN 300) t

/-! ## The aggregate state of `analyze_log` -/

/-- The mutable accumulator state of the single pass (the parts the
claims are about; see the module docstring for the deliberately omitted
report-rendering-only pieces). -/
structure AggState where
  totalLines : ℕ := 0
  gtLines : ℕ := 0
  firstTs : Option DecNum := none
  lastTs : DecNum := DecNum.zero
  opsPerTs : List (DecNum × ℕ) := []
  requestCount : ℕ := 0
  orderCount : ℕ := 0
  noTradeCount : ℕ := 0
  timeoutCount : ℕ := 0
  allRejectedCount : ℕ := 0
  shipsWithRequest : List (List Char × DecNum) := []
  shipsWithTerminal : List (List Char) := []
  queueBusyCount : ℕ := 0
  homeDenyCount : ℕ := 0
  lockAcqCount : ℕ := 0
  lockRelCount : ℕ := 0
  bestTradeSelCount : ℕ := 0
  claimSwitchCount : ℕ := 0
  threatEventCount : ℕ := 0
  shipDestroyedCount : ℕ := 0
  blockEarlyRejectCount : ℕ := 0
  blockAuthGuardCount : ℕ := 0
  earlyMoneyGateCount : ℕ := 0
  shipMoneyCapSkipCount : ℕ := 0
  shipMoneyCapClearedCount : ℕ := 0
  insufficientFundsWaitCount : ℕ := 0
  recentMoneyBlocked : List (List Char × ℕ) := []
  errorLines : List (List Char) := []
  propLookupFails : List (List Char) := []
  criticalLines : List (List Char) := []
  recentNoTrade : List (List Char × ℕ) := []
  recentRejected : List (List Char × ℕ) := []
  recentTimeout : List (List Char × ℕ) := []
  deriving Repr

/-- `ops_per_ts[ts] += 1`, keyed by the float value of the timestamp
(two decimals spellings of the same value share a key, like Python
floats do). -/
def bumpOps : List (DecNum × ℕ) → DecNum → List (DecNum × ℕ)
  | [], q => [(q, 1)]
  | (k, v) :: rest, q =>
    if DecNum.le k q && DecNum.le q k then (k, v + 1) :: rest else (k, v) :: bumpOps rest q

/-! ### The per-line steps, in source order -/

/-- `total_lines += 1`. -/
def stepTotal (st : AggState) : AggState := { st with totalLines := st.totalLines + 1 }

/-- Timestamp extraction: `first_ts`, `last_ts = max(last_ts, ts)`,
`ops_per_ts[ts] += 1`. -/
def stepTs (ts? : Option DecNum) (st : AggState) : AggState :=
  match ts? with
  | some t =>
    { st with
      firstTs := match st.firstTs with | none => some t | some f => some f
      lastTs := st.lastTs.dmax t
      opsPerTs := bumpOps st.opsPerTs t }
  | none => st

/-- Error-line collection with false-error suppression (bounded at 200). -/
def stepErrorLine (s : List Char) (st : AggState) : AggState :=
  if reErrorLine s && !reFalseError s then
    { st with errorLines := pushCap 200 st.errorLines s }
  else st

/-- Property-lookup-failure collection (bounded at 50). -/
def stepPropLookup (s : List Char) (st : AggState) : AggState :=
  if rePropLookup s then { st with propLookupFails := pushCap 50 st.propLookupFails s }
  else st

/-- Critical-line collection: critical/exception marker without a
mod-namespace tag (bounded at 50). -/
def stepCritical (s : List Char) (st : AggState) : AggState :=
  if reCritical s && !reGtTag s then
    { st with criticalLines := pushCap 50 st.criticalLines s }
  else st

/-- `gt_lines += 1` (after the mod-relevance gate). -/
def stepGtCount (st : AggState) : AggState := { st with gtLines := st.gtLines + 1 }

/-- Trade request: `request_count`, `ships_with_request[sid] = ts or 0.0`. -/
def stepRequest (s : List Char) (sid? : Option (List Char)) (ts? : Option DecNum)
    (st : AggState) : AggState :=
  if reRequest s then
    match sid? with
    | some sid =>
      { st with
        requestCount := st.requestCount + 1
        shipsWithRequest := setKV st.shipsWithRequest sid (tsOr0 ts?) }
    | none => { st with requestCount := st.requestCount + 1 }
  else st

/-- Order created: `order_count`, `ships_with_terminal.add(sid)`. -/
def stepOrder (s : List Char) (sid? : Option (List Char)) (st : AggState) : AggState :=
  if reOrderCreated s then
    match sid? with
    | some sid =>
      { st with
        orderCount := st.orderCount + 1
        shipsWithTerminal := insertNew st.shipsWithTerminal sid }
    | none => { st with orderCount := st.orderCount + 1 }
  else st

/-- No trade found: `no_trade_count`, terminal set, and the recency
counter `recent_no_trade`. -/
def stepNoTrade (s : List Char) (sid? : Option (List Char)) (ts? : Option DecNum)
    (st : AggState) : AggState :=
  if reNoTrade s then
    match sid? with
    | some sid =>
      { st with
        noTradeCount := st.noTradeCount + 1
        shipsWithTerminal := insertNew st.shipsWithTerminal sid
        recentNoTrade :=
          if recentOk ts? st.lastTs then bumpCnt st.recentNoTrade sid else st.recentNoTrade }
    | none => { st with noTradeCount := st.noTradeCount + 1 }
  else st

/-- MD timeout: `timeout_count` and `recent_timeout`. -/
def stepTimeout (s : List Char) (sid? : Option (List Char)) (ts? : Option DecNum)
    (st : AggState) : AggState :=
  if reTimeout s then
    match sid? with
    | some sid =>
      { st with
        timeoutCount := st.timeoutCount + 1
        recentTimeout :=
          if recentOk ts? st.lastTs then bumpCnt st.recentTimeout sid else st.recentTimeout }
    | none => { st with timeoutCount := st.timeoutCount + 1 }
  else st

/-- All trades rejected: `all_rejected_count` and `recent_rejected`. -/
def stepAllRejected (s : List Char) (sid? : Option (List Char)) (ts? : Option DecNum)
    (st : AggState) : AggState :=
  if reAllRejected s then
    match sid? with
    | some sid =>
      { st with
        allRejectedCount := st.allRejectedCount + 1
        recentRejected :=
          if recentOk ts? st.lastTs then bumpCnt st.recentRejected sid else st.recentRejected }
    | none => { st with allRejectedCount := st.allRejectedCount + 1 }
  else st

/-- Live-search and cache scalar counters. -/
def stepQueueBusy (s : List Char) (st : AggState) : AggState :=
  if reQueueBusy s then { st with queueBusyCount := st.queueBusyCount + 1 } else st

def stepHomeDeny (s : List Char) (st : AggState) : AggState :=
  if reHomeDeny s then { st with homeDenyCount := st.homeDenyCount + 1 } else st

def stepLockAcq (s : List Char) (st : AggState) : AggState :=
  if reLockAcq s then { st with lockAcqCount := st.lockAcqCount + 1 } else st

def stepLockRel (s : List Char) (st : AggState) : AggState :=
  if reLockRel s then { st with lockRelCount := st.lockRelCount + 1 } else st

def stepBestTrade (s : List Char) (st : AggState) : AggState :=
  if reBestTradeSel s then { st with bestTradeSelCount := st.bestTradeSelCount + 1 } else st

def stepClaimSwitch (s : List Char) (st : AggState) : AggState :=
  if reClaimSwitch s then { st with claimSwitchCount := st.claimSwitchCount + 1 } else st

def stepThreat (s : List Char) (st : AggState) : AggState :=
  if reThreat s then { st with threatEventCount := st.threatEventCount + 1 } else st

def stepShipDestroyed (s : List Char) (st : AggState) : AggState :=
  if reShipDestroyed s then { st with shipDestroyedCount := st.shipDestroyedCount + 1 } else st

/-- Blocked trade (early reject): counter plus the per-ship recency
counter `recent_money_blocked` (the money captures feed only the report
rendering). -/
def stepEarlyReject (s : List Char) (sid? : Option (List Char)) (ts? : Option DecNum)
    (st : AggState) : AggState :=
  if reBlockedEarlyReject s then
    match sid? with
    | some sid =>
      { st with
        blockEarlyRejectCount := st.blockEarlyRejectCount + 1
        recentMoneyBlocked :=
          if recentOk ts? st.lastTs then bumpCnt st.recentMoneyBlocked sid
          else st.recentMoneyBlocked }
    | none => { st with blockEarlyRejectCount := st.blockEarlyRejectCount + 1 }
  else st

/-- Blocked trade (authoritative guard): as `stepEarlyReject`. -/
def stepAuthGuard (s : List Char) (sid? : Option (List Char)) (ts? : Option DecNum)
    (st : AggState) : AggState :=
  if reBlockedAuthGuard s then
    match sid? with
    | some sid =>
      { st with
        blockAuthGuardCount := st.blockAuthGuardCount + 1
        recentMoneyBlocked :=
          if recentOk ts? st.lastTs then bumpCnt st.recentMoneyBlocked sid
          else st.recentMoneyBlocked }
    | none => { st with blockAuthGuardCount := st.blockAuthGuardCount + 1 }
  else st

/-- Early money gate: counter, and the recency counter when a ship id
is present. -/
def stepEarlyGate (s : List Char) (sid? : Option (List Char)) (ts? : Option DecNum)
    (st : AggState) : AggState :=
  if reEarlyMoneyGate s then
    match sid? with
    | some sid =>
      { st with
        earlyMoneyGateCount := st.earlyMoneyGateCount + 1
        recentMoneyBlocked :=
          if recentOk ts? st.lastTs then bumpCnt st.recentMoneyBlocked sid
          else st.recentMoneyBlocked }
    | none => { st with earlyMoneyGateCount := st.earlyMoneyGateCount + 1 }
  else st

/-- Ship money cap skip: as `stepEarlyGate`. -/
def stepCapSkip (s : List Char) (sid? : Option (List Char)) (ts? : Option DecNum)
    (st : AggState) : AggState :=
  if reShipMoneyCapSkip s then
    match sid? with
    | some sid =>
      { st with
        shipMoneyCapSkipCount := st.shipMoneyCapSkipCount + 1
        recentMoneyBlocked :=
          if recentOk ts? st.lastTs then bumpCnt st.recentMoneyBlocked sid
          else st.recentMoneyBlocked }
    | none => { st with shipMoneyCapSkipCount := st.shipMoneyCapSkipCount + 1 }
  else st

def stepCapCleared (s : List Char) (st : AggState) : AggState :=
  if reShipMoneyCapCleared s then
    { st with shipMoneyCapClearedCount := st.shipMoneyCapClearedCount + 1 }
  else st

def stepFundsWait (s : List Char) (st : AggState) : AggState :=
  if reInsufficientFundsWait s then
    { st with insufficientFundsWaitCount := st.insufficientFundsWaitCount + 1 }
  else st

/-- One already-stripped line of the single pass, in the exact order of
the source: line count, timestamp, unconditional error/critical/lookup
classification, then — only for mod-relevant lines — ship-id extraction
and all event categories. -/
def procStripped (st : AggState) (s : List Char) : AggState :=
  let ts? := extractTs s
  let st1 := stepCritical s (stepPropLookup s (stepErrorLine s (stepTs ts? (stepTotal st))))
  if gateGT s then
    let sid? := extract_ship_id s
    stepFundsWait s (stepCapCleared s (stepCapSkip s sid? ts? (stepEarlyGate s sid? ts?
      (stepAuthGuard s sid? ts? (stepEarlyReject s sid? ts? (stepShipDestroyed s
      (stepThreat s (stepClaimSwitch s (stepBestTrade s (stepLockRel s (stepLockAcq s
      (stepHomeDeny s (stepQueueBusy s (stepAllRejected s sid? ts? (stepTimeout s sid? ts?
      (stepNoTrade s sid? ts? (stepOrder s sid? (stepRequest s sid? ts?
      (stepGtCount st1)))))))))))))))))))
  else st1

/-- One raw line: `stripped = line.rstrip()` and then the stripped-line
processing. -/
def processLine (st : AggState) (l : List Char) : AggState := procStripped st (rstrip l)

/-- The whole single pass over the line stream, starting from the empty
accumulator state. -/
def runPass (lines : List (List Char)) : AggState := lines.foldl processLine {}

/-! ## The health evaluator (threshold rules over the final state) -/

/-- The grade of one health check. -/
inductive Grade
  | pass
  | warn
  | fail
  | info
  deriving DecidableEq, Repr

/-- `total_funds_blocks = block_early_reject_count + block_auth_guard_count`. -/
def totalFundsBlocks (st : AggState) : ℕ :=
  st.blockEarlyRejectCount + st.blockAuthGuardCount

/-- The insufficient-funds trade-block severity check: emitted only when
the block total is positive; `> 100 → FAIL`, `> 20 → WARN`, else INFO. -/
def fundsBlocksGrade (st : AggState) : Option Grade :=
  if totalFundsBlocks st > 0 then
    some (if totalFundsBlocks st > 100 then Grade.fail
          else if totalFundsBlocks st > 20 then Grade.warn
          else Grade.info)
  else none

/-- The ship-destruction check: `> 10 → WARN`, `> 0 → INFO`, else PASS. -/
def shipDestroyedGrade (st : AggState) : Grade :=
  if st.shipDestroyedCount > 10 then Grade.warn
  else if st.shipDestroyedCount > 0 then Grade.info
  else Grade.pass

/-- The trade-success-rate check (`success_rate = order_count /
request_count * 100`, FAIL under 10% and WARN under 30% when at least 10
requests were seen, INFO when there were no requests at all). -/
def tradeSuccessGrade (st : AggState) : Grade :=
  if st.requestCount > 0 then
    if (st.orderCount : ℚ) / st.requestCount * 100 < 10 ∧ st.requestCount ≥ 10 then Grade.fail
    else if (st.orderCount : ℚ) / st.requestCount * 100 < 30 ∧ st.requestCount ≥ 10 then Grade.warn
    else Grade.pass
  else Grade.info

/-- `stalled = set(ships_with_request.keys()) - ships_with_terminal`,
computed once at end of stream. -/
def stalledShips (st : AggState) : List (List Char) :=
  (keysOf st.shipsWithRequest).filter (fun sid => !decide (sid ∈ st.shipsWithTerminal))

/-- The stalled-ships check together with the reported count:
`> 5 → FAIL`, nonempty `→ WARN`, else PASS. -/
def stalledGrade (st : AggState) : Grade × ℕ :=
  ((if (stalledShips st).length > 5 then Grade.fail
    else if (stalledShips st).length > 0 then Grade.warn
    else Grade.pass), (stalledShips st).length)

/-! ## Normal forms of the per-line steps

Each per-line step is rewritten as a single structure update whose field
values carry the conditional logic, which lets the per-line projection
lemmas below chain through the pass without unfolding everything at
once. -/

theorem stepTotal_eq (st : AggState) :
    stepTotal st = { st with totalLines := st.totalLines + 1 } := rfl

theorem stepGtCount_eq (st : AggState) :
    stepGtCount st = { st with gtLines := st.gtLines + 1 } := rfl

theorem stepTs_eq (ts? : Option DecNum) (st : AggState) :
    stepTs ts? st =
      { st with
        firstTs := (match ts? with
          | some t => (match st.firstTs with | none => some t | some f => some f)
          | none => st.firstTs)
        lastTs := (match ts? with | some t => st.lastTs.dmax t | none => st.lastTs)
        opsPerTs := (match ts? with | some t => bumpOps st.opsPerTs t | none => st.opsPerTs) } := by
  cases ts? <;> simp [stepTs]

theorem stepErrorLine_eq (s : List Char) (st : AggState) :
    stepErrorLine s st =
      { st with
        errorLines :=
          if reErrorLine s && !reFalseError s then pushCap 200 st.errorLines s
          else st.errorLines } := by
  unfold stepErrorLine
  split <;> simp_all

theorem stepPropLookup_eq (s : List Char) (st : AggState) :
    stepPropLookup s st =
      { st with
        propLookupFails :=
          if rePropLookup s then pushCap 50 st.propLookupFails s else st.propLookupFails } := by
  unfold stepPropLookup
  split <;> simp_all

theorem stepCritical_eq (s : List Char) (st : AggState) :
    stepCritical s st =
      { st with
        criticalLines :=
          if reCritical s && !reGtTag s then pushCap 50 st.criticalLines s
          else st.criticalLines } := by
  unfold stepCritical
  split <;> simp_all

theorem stepRequest_eq (s : List Char) (sid? : Option (List Char)) (ts? : Option DecNum)
    (st : AggState) :
    stepRequest s sid? ts? st =
      { st with
        requestCount := st.requestCount + (if reRequest s then 1 else 0)
        shipsWithRequest :=
          (if reRequest s then
            (match sid? with
             | some sid => setKV st.shipsWithRequest sid (tsOr0 ts?)
             | none => st.shipsWithRequest)
           else st.shipsWithRequest) } := by
  cases sid? <;> simp [stepRequest] <;> split <;> simp

theorem stepOrder_eq (s : List Char) (sid? : Option (List Char)) (st : AggState) :
    stepOrder s sid? st =
      { st with
        orderCount := st.orderCount + (if reOrderCreated s then 1 else 0)
        shipsWithTerminal :=
          (if reOrderCreated s then
            (match sid? with
             | some sid => insertNew st.shipsWithTerminal sid
             | none => st.shipsWithTerminal)
           else st.shipsWithTerminal) } := by
  cases sid? <;> simp [stepOrder] <;> split <;> simp

theorem stepNoTrade_eq (s : List Char) (sid? : Option (List Char)) (ts? : Option DecNum)
    (st : AggState) :
    stepNoTrade s sid? ts? st =
      { st with
        noTradeCount := st.noTradeCount + (if reNoTrade s then 1 else 0)
        shipsWithTerminal :=
          (if reNoTrade s then
            (match sid? with
             | some sid => insertNew st.shipsWithTerminal sid
             | none => st.shipsWithTerminal)
           else st.shipsWithTerminal)
        recentNoTrade :=
          (if reNoTrade s then
            (match sid? with
             | some sid =>
               if recentOk ts? st.lastTs then bumpCnt st.recentNoTrade sid
               else st.recentNoTrade
             | none => st.recentNoTrade)
           else st.recentNoTrade) } := by
  cases sid? <;> simp [stepNoTrade] <;> split <;> simp

theorem stepTimeout_eq (s : List Char) (sid? : Option (List Char)) (ts? : Option DecNum)
    (st : AggState) :
    stepTimeout s sid? ts? st =
      { st with
        timeoutCount := st.timeoutCount + (if reTimeout s then 1 else 0)
        recentTimeout :=
          (if reTimeout s then
            (match sid? with
             | some sid =>
               if recentOk ts? st.lastTs then bumpCnt st.recentTimeout sid
               else st.recentTimeout
             | none => st.recentTimeout)
           else st.recentTimeout) } := by
  cases sid? <;> simp [stepTimeout] <;> split <;> simp

theorem stepAllRejected_eq (s : List Char) (sid? : Option (List Char)) (ts? : Option DecNum)
    (st : AggState) :
    stepAllRejected s sid? ts? st =
      { st with
        allRejectedCount := st.allRejectedCount + (if reAllRejected s then 1 else 0)
        recentRejected :=
          (if reAllRejected s then
            (match sid? with
             | some sid =>
               if recentOk ts? st.lastTs then bumpCnt st.recentRejected sid
               else st.recentRejected
             | none => st.recentRejected)
           else st.recentRejected) } := by
  cases sid? <;> simp [stepAllRejected] <;> split <;> simp

theorem stepQueueBusy_eq (s : List Char) (st : AggState) :
    stepQueueBusy s st =
      { st with queueBusyCount := st.queueBusyCount + (if reQueueBusy s then 1 else 0) } := by
  unfold stepQueueBusy
  split <;> simp

theorem stepHomeDeny_eq (s : List Char) (st : AggState) :
    stepHomeDeny s st =
      { st with homeDenyCount := st.homeDenyCount + (if reHomeDeny s then 1 else 0) } := by
  unfold stepHomeDeny
  split <;> simp

theorem stepLockAcq_eq (s : List Char) (st : AggState) :
    stepLockAcq s st =
      { st with lockAcqCount := st.lockAcqCount + (if reLockAcq s then 1 else 0) } := by
  unfold stepLockAcq
  split <;> simp

theorem stepLockRel_eq (s : List Char) (st : AggState) :
    stepLockRel s st =
      { st with lockRelCount := st.lockRelCount + (if reLockRel s then 1 else 0) } := by
  unfold stepLockRel
  split <;> simp

theorem stepBestTrade_eq (s : List Char) (st : AggState) :
    stepBestTrade s st =
      { st with
        bestTradeSelCount := st.bestTradeSelCount + (if reBestTradeSel s then 1 else 0) } := by
  unfold stepBestTrade
  split <;> simp

theorem stepClaimSwitch_eq (s : List Char) (st : AggState) :
    stepClaimSwitch s st =
      { st with
        claimSwitchCount := st.claimSwitchCount + (if reClaimSwitch s then 1 else 0) } := by
  unfold stepClaimSwitch
  split <;> simp

theorem stepThreat_eq (s : List Char) (st : AggState) :
    stepThreat s st =
      { st with threatEventCount := st.threatEventCount + (if reThreat s then 1 else 0) } := by
  unfold stepThreat
  split <;> simp

theorem stepShipDestroyed_eq (s : List Char) (st : AggState) :
    stepShipDestroyed s st =
      { st with
        shipDestroyedCount := st.shipDestroyedCount + (if reShipDestroyed s then 1 else 0) } := by
  unfold stepShipDestroyed
  split <;> simp

theorem stepEarlyReject_eq (s : List Char) (sid? : Option (List Char)) (ts? : Option DecNum)
    (st : AggState) :
    stepEarlyReject s sid? ts? st =
      { st with
        blockEarlyRejectCount :=
          st.blockEarlyRejectCount + (if reBlockedEarlyReject s then 1 else 0)
        recentMoneyBlocked :=
          (if reBlockedEarlyReject s then
            (match sid? with
             | some sid =>
               if recentOk ts? st.lastTs then bumpCnt st.recentMoneyBlocked sid
               else st.recentMoneyBlocked
             | none => st.recentMoneyBlocked)
           else st.recentMoneyBlocked) } := by
  cases sid? <;> simp [stepEarlyReject] <;> split <;> simp

theorem stepAuthGuard_eq (s : List Char) (sid? : Option (List Char)) (ts? : Option DecNum)
    (st : AggState) :
    stepAuthGuard s sid? ts? st =
      { st with
        blockAuthGuardCount := st.blockAuthGuardCount + (if reBlockedAuthGuard s then 1 else 0)
        recentMoneyBlocked :=
          (if reBlockedAuthGuard s then
            (match sid? with
             | some sid =>
               if recentOk ts? st.lastTs then bumpCnt st.recentMoneyBlocked sid
               else st.recentMoneyBlocked
             | none => st.recentMoneyBlocked)
           else st.recentMoneyBlocked) } := by
  cases sid? <;> simp [stepAuthGuard] <;> split <;> simp

theorem stepEarlyGate_eq (s : List Char) (sid? : Option (List Char)) (ts? : Option DecNum)
    (st : AggState) :
    stepEarlyGate s sid? ts? st =
      { st with
        earlyMoneyGateCount := st.earlyMoneyGateCount + (if reEarlyMoneyGate s then 1 else 0)
        recentMoneyBlocked :=
          (if reEarlyMoneyGate s then
            (match sid? with
             | some sid =>
               if recentOk ts? st.lastTs then bumpCnt st.recentMoneyBlocked sid
               else st.recentMoneyBlocked
             | none => st.recentMoneyBlocked)
           else st.recentMoneyBlocked) } := by
  cases sid? <;> simp [stepEarlyGate] <;> split <;> simp

theorem stepCapSkip_eq (s : List Char) (sid? : Option (List Char)) (ts? : Option DecNum)
    (st : AggState) :
    stepCapSkip s sid? ts? st =
      { st with
        shipMoneyCapSkipCount :=
          st.shipMoneyCapSkipCount + (if reShipMoneyCapSkip s then 1 else 0)
        recentMoneyBlocked :=
          (if reShipMoneyCapSkip s then
            (match sid? with
             | some sid =>
               if recentOk ts? st.lastTs then bumpCnt st.recentMoneyBlocked sid
               else st.recentMoneyBlocked
             | none => st.recentMoneyBlocked)
           else st.recentMoneyBlocked) } := by
  cases sid? <;> simp [stepCapSkip] <;> split <;> simp

theorem stepCapCleared_eq (s : List Char) (st : AggState) :
    stepCapCleared s st =
      { st with
        shipMoneyCapClearedCount :=
          st.shipMoneyCapClearedCount + (if reShipMoneyCapCleared s then 1 else 0) } := by
  unfold stepCapCleared
  split <;> simp

theorem stepFundsWait_eq (s : List Char) (st : AggState) :
    stepFundsWait s st =
      { st with
        insufficientFundsWaitCount :=
          st.insufficientFundsWaitCount + (if reInsufficientFundsWait s then 1 else 0) } := by
  unfold stepFundsWait
  split <;> simp

/-! ## Per-line projection lemmas

For each aggregate field named by a claim, what one processed line does
to it.  The scalar category counters increment exactly when the line
passes the mod-relevance gate and matches the category pattern — they
depend only on the line's own text, which is what makes them
order-independent. -/

theorem line_requestCount (st : AggState) (s : List Char) :
    (procStripped st s).requestCount =
      st.requestCount + (if gateGT s && reRequest s then 1 else 0) := by
  unfold procStripped
  cases hg : gateGT s <;>
    simp only [hg, Bool.false_and, Bool.true_and, stepFundsWait_eq, stepCapCleared_eq, stepCapSkip_eq,
      stepEarlyGate_eq, stepAuthGuard_eq, stepEarlyReject_eq, stepShipDestroyed_eq,
      stepThreat_eq, stepClaimSwitch_eq, stepBestTrade_eq, stepLockRel_eq, stepLockAcq_eq,
      stepHomeDeny_eq, stepQueueBusy_eq, stepAllRejected_eq, stepTimeout_eq,
      stepNoTrade_eq, stepOrder_eq, stepRequest_eq, stepGtCount_eq, stepCritical_eq,
      stepPropLookup_eq, stepErrorLine_eq, stepTs_eq, stepTotal_eq] <;> simp

theorem line_orderCount (st : AggState) (s : List Char) :
    (procStripped st s).orderCount =
      st.orderCount + (if gateGT s && reOrderCreated s then 1 else 0) := by
  unfold procStripped
  cases hg : gateGT s <;>
    simp only [hg, Bool.false_and, Bool.true_and, stepFundsWait_eq, stepCapCleared_eq, stepCapSkip_eq,
      stepEarlyGate_eq, stepAuthGuard_eq, stepEarlyReject_eq, stepShipDestroyed_eq,
      stepThreat_eq, stepClaimSwitch_eq, stepBestTrade_eq, stepLockRel_eq, stepLockAcq_eq,
      stepHomeDeny_eq, stepQueueBusy_eq, stepAllRejected_eq, stepTimeout_eq,
      stepNoTrade_eq, stepOrder_eq, stepRequest_eq, stepGtCount_eq, stepCritical_eq,
      stepPropLookup_eq, stepErrorLine_eq, stepTs_eq, stepTotal_eq] <;> simp

theorem line_noTradeCount (st : AggState) (s : List Char) :
    (procStripped st s).noTradeCount =
      st.noTradeCount + (if gateGT s && reNoTrade s then 1 else 0) := by
  unfold procStripped
  cases hg : gateGT s <;>
    simp only [hg, Bool.false_and, Bool.true_and, stepFundsWait_eq, stepCapCleared_eq, stepCapSkip_eq,
      stepEarlyGate_eq, stepAuthGuard_eq, stepEarlyReject_eq, stepShipDestroyed_eq,
      stepThreat_eq, stepClaimSwitch_eq, stepBestTrade_eq, stepLockRel_eq, stepLockAcq_eq,
      stepHomeDeny_eq, stepQueueBusy_eq, stepAllRejected_eq, stepTimeout_eq,
      stepNoTrade_eq, stepOrder_eq, stepRequest_eq, stepGtCount_eq, stepCritical_eq,
      stepPropLookup_eq, stepErrorLine_eq, stepTs_eq, stepTotal_eq] <;> simp

theorem line_timeoutCount (st : AggState) (s : List Char) :
    (procStripped st s).timeoutCount =
      st.timeoutCount + (if gateGT s && reTimeout s then 1 else 0) := by
  unfold procStripped
  cases hg : gateGT s <;>
    simp only [hg, Bool.false_and, Bool.true_and, stepFundsWait_eq, stepCapCleared_eq, stepCapSkip_eq,
      stepEarlyGate_eq, stepAuthGuard_eq, stepEarlyReject_eq, stepShipDestroyed_eq,
      stepThreat_eq, stepClaimSwitch_eq, stepBestTrade_eq, stepLockRel_eq, stepLockAcq_eq,
      stepHomeDeny_eq, stepQueueBusy_eq, stepAllRejected_eq, stepTimeout_eq,
      stepNoTrade_eq, stepOrder_eq, stepRequest_eq, stepGtCount_eq, stepCritical_eq,
      stepPropLookup_eq, stepErrorLine_eq, stepTs_eq, stepTotal_eq] <;> simp

theorem line_allRejectedCount (st : AggState) (s : List Char) :
    (procStripped st s).allRejectedCount =
      st.allRejectedCount + (if gateGT s && reAllRejected s then 1 else 0) := by
  unfold procStripped
  cases hg : gateGT s <;>
    simp only [hg, Bool.false_and, Bool.true_and, stepFundsWait_eq, stepCapCleared_eq, stepCapSkip_eq,
      stepEarlyGate_eq, stepAuthGuard_eq, stepEarlyReject_eq, stepShipDestroyed_eq,
      stepThreat_eq, stepClaimSwitch_eq, stepBestTrade_eq, stepLockRel_eq, stepLockAcq_eq,
      stepHomeDeny_eq, stepQueueBusy_eq, stepAllRejected_eq, stepTimeout_eq,
      stepNoTrade_eq, stepOrder_eq, stepRequest_eq, stepGtCount_eq, stepCritical_eq,
      stepPropLookup_eq, stepErrorLine_eq, stepTs_eq, stepTotal_eq] <;> simp

theorem line_queueBusyCount (st : AggState) (s : List Char) :
    (procStripped st s).queueBusyCount =
      st.queueBusyCount + (if gateGT s && reQueueBusy s then 1 else 0) := by
  unfold procStripped
  cases hg : gateGT s <;>
    simp only [hg, Bool.false_and, Bool.true_and, stepFundsWait_eq, stepCapCleared_eq, stepCapSkip_eq,
      stepEarlyGate_eq, stepAuthGuard_eq, stepEarlyReject_eq, stepShipDestroyed_eq,
      stepThreat_eq, stepClaimSwitch_eq, stepBestTrade_eq, stepLockRel_eq, stepLockAcq_eq,
      stepHomeDeny_eq, stepQueueBusy_eq, stepAllRejected_eq, stepTimeout_eq,
      stepNoTrade_eq, stepOrder_eq, stepRequest_eq, stepGtCount_eq, stepCritical_eq,
      stepPropLookup_eq, stepErrorLine_eq, stepTs_eq, stepTotal_eq] <;> simp

theorem line_homeDenyCount (st : AggState) (s : List Char) :
    (procStripped st s).homeDenyCount =
      st.homeDenyCount + (if gateGT s && reHomeDeny s then 1 else 0) := by
  unfold procStripped
  cases hg : gateGT s <;>
    simp only [hg, Bool.false_and, Bool.true_and, stepFundsWait_eq, stepCapCleared_eq, stepCapSkip_eq,
      stepEarlyGate_eq, stepAuthGuard_eq, stepEarlyReject_eq, stepShipDestroyed_eq,
      stepThreat_eq, stepClaimSwitch_eq, stepBestTrade_eq, stepLockRel_eq, stepLockAcq_eq,
      stepHomeDeny_eq, stepQueueBusy_eq, stepAllRejected_eq, stepTimeout_eq,
      stepNoTrade_eq, stepOrder_eq, stepRequest_eq, stepGtCount_eq, stepCritical_eq,
      stepPropLookup_eq, stepErrorLine_eq, stepTs_eq, stepTotal_eq] <;> simp

theorem line_lockAcqCount (st : AggState) (s : List Char) :
    (procStripped st s).lockAcqCount =
      st.lockAcqCount + (if gateGT s && reLockAcq s then 1 else 0) := by
  unfold procStripped
  cases hg : gateGT s <;>
    simp only [hg, Bool.false_and, Bool.true_and, stepFundsWait_eq, stepCapCleared_eq, stepCapSkip_eq,
      stepEarlyGate_eq, stepAuthGuard_eq, stepEarlyReject_eq, stepShipDestroyed_eq,
      stepThreat_eq, stepClaimSwitch_eq, stepBestTrade_eq, stepLockRel_eq, stepLockAcq_eq,
      stepHomeDeny_eq, stepQueueBusy_eq, stepAllRejected_eq, stepTimeout_eq,
      stepNoTrade_eq, stepOrder_eq, stepRequest_eq, stepGtCount_eq, stepCritical_eq,
      stepPropLookup_eq, stepErrorLine_eq, stepTs_eq, stepTotal_eq] <;> simp

theorem line_lockRelCount (st : AggState) (s : List Char) :
    (procStripped st s).lockRelCount =
      st.lockRelCount + (if gateGT s && reLockRel s then 1 else 0) := by
  unfold procStripped
  cases hg : gateGT s <;>
    simp only [hg, Bool.false_and, Bool.true_and, stepFundsWait_eq, stepCapCleared_eq, stepCapSkip_eq,
      stepEarlyGate_eq, stepAuthGuard_eq, stepEarlyReject_eq, stepShipDestroyed_eq,
      stepThreat_eq, stepClaimSwitch_eq, stepBestTrade_eq, stepLockRel_eq, stepLockAcq_eq,
      stepHomeDeny_eq, stepQueueBusy_eq, stepAllRejected_eq, stepTimeout_eq,
      stepNoTrade_eq, stepOrder_eq, stepRequest_eq, stepGtCount_eq, stepCritical_eq,
      stepPropLookup_eq, stepErrorLine_eq, stepTs_eq, stepTotal_eq] <;> simp

theorem line_bestTradeSelCount (st : AggState) (s : List Char) :
    (procStripped st s).bestTradeSelCount =
      st.bestTradeSelCount + (if gateGT s && reBestTradeSel s then 1 else 0) := by
  unfold procStripped
  cases hg : gateGT s <;>
    simp only [hg, Bool.false_and, Bool.true_and, stepFundsWait_eq, stepCapCleared_eq, stepCapSkip_eq,
      stepEarlyGate_eq, stepAuthGuard_eq, stepEarlyReject_eq, stepShipDestroyed_eq,
      stepThreat_eq, stepClaimSwitch_eq, stepBestTrade_eq, stepLockRel_eq, stepLockAcq_eq,
      stepHomeDeny_eq, stepQueueBusy_eq, stepAllRejected_eq, stepTimeout_eq,
      stepNoTrade_eq, stepOrder_eq, stepRequest_eq, stepGtCount_eq, stepCritical_eq,
      stepPropLookup_eq, stepErrorLine_eq, stepTs_eq, stepTotal_eq] <;> simp

theorem line_claimSwitchCount (st : AggState) (s : List Char) :
    (procStripped st s).claimSwitchCount =
      st.claimSwitchCount + (if gateGT s && reClaimSwitch s then 1 else 0) := by
  unfold procStripped
  cases hg : gateGT s <;>
    simp only [hg, Bool.false_and, Bool.true_and, stepFundsWait_eq, stepCapCleared_eq, stepCapSkip_eq,
      stepEarlyGate_eq, stepAuthGuard_eq, stepEarlyReject_eq, stepShipDestroyed_eq,
      stepThreat_eq, stepClaimSwitch_eq, stepBestTrade_eq, stepLockRel_eq, stepLockAcq_eq,
      stepHomeDeny_eq, stepQueueBusy_eq, stepAllRejected_eq, stepTimeout_eq,
      stepNoTrade_eq, stepOrder_eq, stepRequest_eq, stepGtCount_eq, stepCritical_eq,
      stepPropLookup_eq, stepErrorLine_eq, stepTs_eq, stepTotal_eq] <;> simp

theorem line_threatEventCount (st : AggState) (s : List Char) :
    (procStripped st s).threatEventCount =
      st.threatEventCount + (if gateGT s && reThreat s then 1 else 0) := by
  unfold procStripped
  cases hg : gateGT s <;>
    simp only [hg, Bool.false_and, Bool.true_and, stepFundsWait_eq, stepCapCleared_eq, stepCapSkip_eq,
      stepEarlyGate_eq, stepAuthGuard_eq, stepEarlyReject_eq, stepShipDestroyed_eq,
      stepThreat_eq, stepClaimSwitch_eq, stepBestTrade_eq, stepLockRel_eq, stepLockAcq_eq,
      stepHomeDeny_eq, stepQueueBusy_eq, stepAllRejected_eq, stepTimeout_eq,
      stepNoTrade_eq, stepOrder_eq, stepRequest_eq, stepGtCount_eq, stepCritical_eq,
      stepPropLookup_eq, stepErrorLine_eq, stepTs_eq, stepTotal_eq] <;> simp

theorem line_shipDestroyedCount (st : AggState) (s : List Char) :
    (procStripped st s).shipDestroyedCount =
      st.shipDestroyedCount + (if gateGT s && reShipDestroyed s then 1 else 0) := by
  unfold procStripped
  cases hg : gateGT s <;>
    simp only [hg, Bool.false_and, Bool.true_and, stepFundsWait_eq, stepCapCleared_eq, stepCapSkip_eq,
      stepEarlyGate_eq, stepAuthGuard_eq, stepEarlyReject_eq, stepShipDestroyed_eq,
      stepThreat_eq, stepClaimSwitch_eq, stepBestTrade_eq, stepLockRel_eq, stepLockAcq_eq,
      stepHomeDeny_eq, stepQueueBusy_eq, stepAllRejected_eq, stepTimeout_eq,
      stepNoTrade_eq, stepOrder_eq, stepRequest_eq, stepGtCount_eq, stepCritical_eq,
      stepPropLookup_eq, stepErrorLine_eq, stepTs_eq, stepTotal_eq] <;> simp

theorem line_blockEarlyRejectCount (st : AggState) (s : List Char) :
    (procStripped st s).blockEarlyRejectCount =
      st.blockEarlyRejectCount + (if gateGT s && reBlockedEarlyReject s then 1 else 0) := by
  unfold procStripped
  cases hg : gateGT s <;>
    simp only [hg, Bool.false_and, Bool.true_and, stepFundsWait_eq, stepCapCleared_eq, stepCapSkip_eq,
      stepEarlyGate_eq, stepAuthGuard_eq, stepEarlyReject_eq, stepShipDestroyed_eq,
      stepThreat_eq, stepClaimSwitch_eq, stepBestTrade_eq, stepLockRel_eq, stepLockAcq_eq,
      stepHomeDeny_eq, stepQueueBusy_eq, stepAllRejected_eq, stepTimeout_eq,
      stepNoTrade_eq, stepOrder_eq, stepRequest_eq, stepGtCount_eq, stepCritical_eq,
      stepPropLookup_eq, stepErrorLine_eq, stepTs_eq, stepTotal_eq] <;> simp

theorem line_blockAuthGuardCount (st : AggState) (s : List Char) :
    (procStripped st s).blockAuthGuardCount =
      st.blockAuthGuardCount + (if gateGT s && reBlockedAuthGuard s then 1 else 0) := by
  unfold procStripped
  cases hg : gateGT s <;>
    simp only [hg, Bool.false_and, Bool.true_and, stepFundsWait_eq, stepCapCleared_eq, stepCapSkip_eq,
      stepEarlyGate_eq, stepAuthGuard_eq, stepEarlyReject_eq, stepShipDestroyed_eq,
      stepThreat_eq, stepClaimSwitch_eq, stepBestTrade_eq, stepLockRel_eq, stepLockAcq_eq,
      stepHomeDeny_eq, stepQueueBusy_eq, stepAllRejected_eq, stepTimeout_eq,
      stepNoTrade_eq, stepOrder_eq, stepRequest_eq, stepGtCount_eq, stepCritical_eq,
      stepPropLookup_eq, stepErrorLine_eq, stepTs_eq, stepTotal_eq] <;> simp

theorem line_earlyMoneyGateCount (st : AggState) (s : List Char) :
    (procStripped st s).earlyMoneyGateCount =
      st.earlyMoneyGateCount + (if gateGT s && reEarlyMoneyGate s then 1 else 0) := by
  unfold procStripped
  cases hg : gateGT s <;>
    simp only [hg, Bool.false_and, Bool.true_and, stepFundsWait_eq, stepCapCleared_eq, stepCapSkip_eq,
      stepEarlyGate_eq, stepAuthGuard_eq, stepEarlyReject_eq, stepShipDestroyed_eq,
      stepThreat_eq, stepClaimSwitch_eq, stepBestTrade_eq, stepLockRel_eq, stepLockAcq_eq,
      stepHomeDeny_eq, stepQueueBusy_eq, stepAllRejected_eq, stepTimeout_eq,
      stepNoTrade_eq, stepOrder_eq, stepRequest_eq, stepGtCount_eq, stepCritical_eq,
      stepPropLookup_eq, stepErrorLine_eq, stepTs_eq, stepTotal_eq] <;> simp

theorem line_shipMoneyCapSkipCount (st : AggState) (s : List Char) :
    (procStripped st s).shipMoneyCapSkipCount =
      st.shipMoneyCapSkipCount + (if gateGT s && reShipMoneyCapSkip s then 1 else 0) := by
  unfold procStripped
  cases hg : gateGT s <;>
    simp only [hg, Bool.false_and, Bool.true_and, stepFundsWait_eq, stepCapCleared_eq, stepCapSkip_eq,
      stepEarlyGate_eq, stepAuthGuard_eq, stepEarlyReject_eq, stepShipDestroyed_eq,
      stepThreat_eq, stepClaimSwitch_eq, stepBestTrade_eq, stepLockRel_eq, stepLockAcq_eq,
      stepHomeDeny_eq, stepQueueBusy_eq, stepAllRejected_eq, stepTimeout_eq,
      stepNoTrade_eq, stepOrder_eq, stepRequest_eq, stepGtCount_eq, stepCritical_eq,
      stepPropLookup_eq, stepErrorLine_eq, stepTs_eq, stepTotal_eq] <;> simp

theorem line_shipMoneyCapClearedCount (st : AggState) (s : List Char) :
    (procStripped st s).shipMoneyCapClearedCount =
      st.shipMoneyCapClearedCount + (if gateGT s && reShipMoneyCapCleared s then 1 else 0) := by
  unfold procStripped
  cases hg : gateGT s <;>
    simp only [hg, Bool.false_and, Bool.true_and, stepFundsWait_eq, stepCapCleared_eq, stepCapSkip_eq,
      stepEarlyGate_eq, stepAuthGuard_eq, stepEarlyReject_eq, stepShipDestroyed_eq,
      stepThreat_eq, stepClaimSwitch_eq, stepBestTrade_eq, stepLockRel_eq, stepLockAcq_eq,
      stepHomeDeny_eq, stepQueueBusy_eq, stepAllRejected_eq, stepTimeout_eq,
      stepNoTrade_eq, stepOrder_eq, stepRequest_eq, stepGtCount_eq, stepCritical_eq,
      stepPropLookup_eq, stepErrorLine_eq, stepTs_eq, stepTotal_eq] <;> simp

theorem line_insufficientFundsWaitCount (st : AggState) (s : List Char) :
    (procStripped st s).insufficientFundsWaitCount =
      st.insufficientFundsWaitCount + (if gateGT s && reInsufficientFundsWait s then 1 else 0) := by
  unfold procStripped
  cases hg : gateGT s <;>
    simp only [hg, Bool.false_and, Bool.true_and, stepFundsWait_eq, stepCapCleared_eq, stepCapSkip_eq,
      stepEarlyGate_eq, stepAuthGuard_eq, stepEarlyReject_eq, stepShipDestroyed_eq,
      stepThreat_eq, stepClaimSwitch_eq, stepBestTrade_eq, stepLockRel_eq, stepLockAcq_eq,
      stepHomeDeny_eq, stepQueueBusy_eq, stepAllRejected_eq, stepTimeout_eq,
      stepNoTrade_eq, stepOrder_eq, stepRequest_eq, stepGtCount_eq, stepCritical_eq,
      stepPropLookup_eq, stepErrorLine_eq, stepTs_eq, stepTotal_eq] <;> simp

/-- A line qualifies for the error buffer: error tag, not on the benign
denylist. -/
def qualError (s : List Char) : Bool := reErrorLine s && !reFalseError s

/-- A line qualifies for the property-lookup-failure buffer. -/
def qualProp (s : List Char) : Bool := rePropLookup s

/-- A line qualifies for the critical buffer: critical marker without a
mod tag. -/
def qualCritical (s : List Char) : Bool := reCritical s && !reGtTag s

theorem line_errorLines (st : AggState) (s : List Char) :
    (procStripped st s).errorLines =
      if qualError s then pushCap 200 st.errorLines s else st.errorLines := by
  unfold procStripped qualError
  cases hg : gateGT s <;>
    simp only [hg, stepFundsWait_eq, stepCapCleared_eq, stepCapSkip_eq,
      stepEarlyGate_eq, stepAuthGuard_eq, stepEarlyReject_eq, stepShipDestroyed_eq,
      stepThreat_eq, stepClaimSwitch_eq, stepBestTrade_eq, stepLockRel_eq, stepLockAcq_eq,
      stepHomeDeny_eq, stepQueueBusy_eq, stepAllRejected_eq, stepTimeout_eq,
      stepNoTrade_eq, stepOrder_eq, stepRequest_eq, stepGtCount_eq, stepCritical_eq,
      stepPropLookup_eq, stepErrorLine_eq, stepTs_eq, stepTotal_eq] <;> try rfl

theorem line_propLookupFails (st : AggState) (s : List Char) :
    (procStripped st s).propLookupFails =
      if qualProp s then pushCap 50 st.propLookupFails s else st.propLookupFails := by
  unfold procStripped qualProp
  cases hg : gateGT s <;>
    simp only [hg, stepFundsWait_eq, stepCapCleared_eq, stepCapSkip_eq,
      stepEarlyGate_eq, stepAuthGuard_eq, stepEarlyReject_eq, stepShipDestroyed_eq,
      stepThreat_eq, stepClaimSwitch_eq, stepBestTrade_eq, stepLockRel_eq, stepLockAcq_eq,
      stepHomeDeny_eq, stepQueueBusy_eq, stepAllRejected_eq, stepTimeout_eq,
      stepNoTrade_eq, stepOrder_eq, stepRequest_eq, stepGtCount_eq, stepCritical_eq,
      stepPropLookup_eq, stepErrorLine_eq, stepTs_eq, stepTotal_eq] <;> try rfl

theorem line_criticalLines (st : AggState) (s : List Char) :
    (procStripped st s).criticalLines =
      if qualCritical s then pushCap 50 st.criticalLines s else st.criticalLines := by
  unfold procStripped qualCritical
  cases hg : gateGT s <;>
    simp only [hg, stepFundsWait_eq, stepCapCleared_eq, stepCapSkip_eq,
      stepEarlyGate_eq, stepAuthGuard_eq, stepEarlyReject_eq, stepShipDestroyed_eq,
      stepThreat_eq, stepClaimSwitch_eq, stepBestTrade_eq, stepLockRel_eq, stepLockAcq_eq,
      stepHomeDeny_eq, stepQueueBusy_eq, stepAllRejected_eq, stepTimeout_eq,
      stepNoTrade_eq, stepOrder_eq, stepRequest_eq, stepGtCount_eq, stepCritical_eq,
      stepPropLookup_eq, stepErrorLine_eq, stepTs_eq, stepTotal_eq] <;> try rfl

/-- The running maximum timestamp after the current line's timestamp
extraction (`last_ts = max(last_ts, ts)`); this is the value the
recency guards of the same line compare against. -/
def newLastTs (st : AggState) (s : List Char) : DecNum :=
  match extractTs s with
  | some t => st.lastTs.dmax t
  | none => st.lastTs

theorem line_recentNoTrade (st : AggState) (s : List Char) :
    (procStripped st s).recentNoTrade =
      if gateGT s && reNoTrade s then
        (match extract_ship_id s with
         | some sid =>
           if recentOk (extractTs s) (newLastTs st s) then bumpCnt st.recentNoTrade sid
           else st.recentNoTrade
         | none => st.recentNoTrade)
      else st.recentNoTrade := by
  unfold procStripped newLastTs
  cases hg : gateGT s <;> cases hts : extractTs s <;>
    simp only [hg, hts, Bool.false_and, Bool.true_and, stepFundsWait_eq, stepCapCleared_eq,
      stepCapSkip_eq, stepEarlyGate_eq, stepAuthGuard_eq, stepEarlyReject_eq,
      stepShipDestroyed_eq, stepThreat_eq, stepClaimSwitch_eq, stepBestTrade_eq,
      stepLockRel_eq, stepLockAcq_eq, stepHomeDeny_eq, stepQueueBusy_eq,
      stepAllRejected_eq, stepTimeout_eq, stepNoTrade_eq, stepOrder_eq, stepRequest_eq,
      stepGtCount_eq, stepCritical_eq, stepPropLookup_eq, stepErrorLine_eq, stepTs_eq,
      stepTotal_eq] <;> simp

theorem line_recentTimeout (st : AggState) (s : List Char) :
    (procStripped st s).recentTimeout =
      if gateGT s && reTimeout s then
        (match extract_ship_id s with
         | some sid =>
           if recentOk (extractTs s) (newLastTs st s) then bumpCnt st.recentTimeout sid
           else st.recentTimeout
         | none => st.recentTimeout)
      else st.recentTimeout := by
  unfold procStripped newLastTs
  cases hg : gateGT s <;> cases hts : extractTs s <;>
    simp only [hg, hts, Bool.false_and, Bool.true_and, stepFundsWait_eq, stepCapCleared_eq,
      stepCapSkip_eq, stepEarlyGate_eq, stepAuthGuard_eq, stepEarlyReject_eq,
      stepShipDestroyed_eq, stepThreat_eq, stepClaimSwitch_eq, stepBestTrade_eq,
      stepLockRel_eq, stepLockAcq_eq, stepHomeDeny_eq, stepQueueBusy_eq,
      stepAllRejected_eq, stepTimeout_eq, stepNoTrade_eq, stepOrder_eq, stepRequest_eq,
      stepGtCount_eq, stepCritical_eq, stepPropLookup_eq, stepErrorLine_eq, stepTs_eq,
      stepTotal_eq] <;> simp

theorem line_recentRejected (st : AggState) (s : List Char) :
    (procStripped st s).recentRejected =
      if gateGT s && reAllRejected s then
        (match extract_ship_id s with
         | some sid =>
           if recentOk (extractTs s) (newLastTs st s) then bumpCnt st.recentRejected sid
           else st.recentRejected
         | none => st.recentRejected)
      else st.recentRejected := by
  unfold procStripped newLastTs
  cases hg : gateGT s <;> cases hts : extractTs s <;>
    simp only [hg, hts, Bool.false_and, Bool.true_and, stepFundsWait_eq, stepCapCleared_eq,
      stepCapSkip_eq, stepEarlyGate_eq, stepAuthGuard_eq, stepEarlyReject_eq,
      stepShipDestroyed_eq, stepThreat_eq, stepClaimSwitch_eq, stepBestTrade_eq,
      stepLockRel_eq, stepLockAcq_eq, stepHomeDeny_eq, stepQueueBusy_eq,
      stepAllRejected_eq, stepTimeout_eq, stepNoTrade_eq, stepOrder_eq, stepRequest_eq,
      stepGtCount_eq, stepCritical_eq, stepPropLookup_eq, stepErrorLine_eq, stepTs_eq,
      stepTotal_eq] <;> simp

/-- When the recency guard is false for the line, none of the four
`recent_*` counters changes. -/
theorem line_recents_unchanged (st : AggState) (s : List Char)
    (h : recentOk (extractTs s) (newLastTs st s) = false) :
    (procStripped st s).recentNoTrade = st.recentNoTrade ∧
    (procStripped st s).recentTimeout = st.recentTimeout ∧
    (procStripped st s).recentRejected = st.recentRejected ∧
    (procStripped st s).recentMoneyBlocked = st.recentMoneyBlocked := by
  refine ⟨?_, ?_, ?_, ?_⟩ <;>
  · unfold procStripped
    revert h
    unfold newLastTs
    cases hg : gateGT s <;> cases hts : extractTs s <;> cases hsid : extract_ship_id s <;>
      intro h <;>
      simp only [hg, hts, hsid, h, Bool.false_and, Bool.true_and, stepFundsWait_eq,
        stepCapCleared_eq, stepCapSkip_eq, stepEarlyGate_eq, stepAuthGuard_eq,
        stepEarlyReject_eq, stepShipDestroyed_eq, stepThreat_eq, stepClaimSwitch_eq,
        stepBestTrade_eq, stepLockRel_eq, stepLockAcq_eq, stepHomeDeny_eq,
        stepQueueBusy_eq, stepAllRejected_eq, stepTimeout_eq, stepNoTrade_eq,
        stepOrder_eq, stepRequest_eq, stepGtCount_eq, stepCritical_eq, stepPropLookup_eq,
        stepErrorLine_eq, stepTs_eq, stepTotal_eq] <;> simp

/-! ## Run-level characterizations

A scalar category counter of the whole pass is the number of lines
whose stripped text passes the gate and matches the category pattern —
a `countP` over the input, hence a function of the multiset of lines
only. -/

/-- Generic fold lemma for a counter-like projection. -/
theorem foldl_counter (f : AggState → ℕ) (p : List Char → Bool)
    (hstep : ∀ st s, f (processLine st s) = f st + (if p s then 1 else 0)) :
    ∀ (ls : List (List Char)) (st : AggState),
      f (List.foldl processLine st ls) = f st + ls.countP p := by
  intro ls
  induction ls with
  | nil => intro st; simp
  | cons a t ih =>
    intro st
    rw [List.foldl_cons, ih, hstep, List.countP_cons]
    omega

/-- The per-line indicator of one scalar category counter. -/
def lineHits (p : List Char → Bool) (l : List Char) : Bool := gateGT (rstrip l) && p (rstrip l)

theorem run_requestCount (ls : List (List Char)) :
    (runPass ls).requestCount = ls.countP (lineHits reRequest) := by
  have h := foldl_counter (fun st => st.requestCount) (lineHits reRequest)
    (fun st s => by simpa [processLine, lineHits] using line_requestCount st (rstrip s)) ls {}
  simpa [runPass] using h

theorem run_orderCount (ls : List (List Char)) :
    (runPass ls).orderCount = ls.countP (lineHits reOrderCreated) := by
  have h := foldl_counter (fun st => st.orderCount) (lineHits reOrderCreated)
    (fun st s => by simpa [processLine, lineHits] using line_orderCount st (rstrip s)) ls {}
  simpa [runPass] using h

theorem run_noTradeCount (ls : List (List Char)) :
    (runPass ls).noTradeCount = ls.countP (lineHits reNoTrade) := by
  have h := foldl_counter (fun st => st.noTradeCount) (lineHits reNoTrade)
    (fun st s => by simpa [processLine, lineHits] using line_noTradeCount st (rstrip s)) ls {}
  simpa [runPass] using h

theorem run_timeoutCount (ls : List (List Char)) :
    (runPass ls).timeoutCount = ls.countP (lineHits reTimeout) := by
  have h := foldl_counter (fun st => st.timeoutCount) (lineHits reTimeout)
    (fun st s => by simpa [processLine, lineHits] using line_timeoutCount st (rstrip s)) ls {}
  simpa [runPass] using h

theorem run_allRejectedCount (ls : List (List Char)) :
    (runPass ls).allRejectedCount = ls.countP (lineHits reAllRejected) := by
  have h := foldl_counter (fun st => st.allRejectedCount) (lineHits reAllRejected)
    (fun st s => by simpa [processLine, lineHits] using line_allRejectedCount st (rstrip s)) ls {}
  simpa [runPass] using h

theorem run_queueBusyCount (ls : List (List Char)) :
    (runPass ls).queueBusyCount = ls.countP (lineHits reQueueBusy) := by
  have h := foldl_counter (fun st => st.queueBusyCount) (lineHits reQueueBusy)
    (fun st s => by simpa [processLine, lineHits] using line_queueBusyCount st (rstrip s)) ls {}
  simpa [runPass] using h

theorem run_homeDenyCount (ls : List (List Char)) :
    (runPass ls).homeDenyCount = ls.countP (lineHits reHomeDeny) := by
  have h := foldl_counter (fun st => st.homeDenyCount) (lineHits reHomeDeny)
    (fun st s => by simpa [processLine, lineHits] using line_homeDenyCount st (rstrip s)) ls {}
  simpa [runPass] using h

theorem run_lockAcqCount (ls : List (List Char)) :
    (runPass ls).lockAcqCount = ls.countP (lineHits reLockAcq) := by
  have h := foldl_counter (fun st => st.lockAcqCount) (lineHits reLockAcq)
    (fun st s => by simpa [processLine, lineHits] using line_lockAcqCount st (rstrip s)) ls {}
  simpa [runPass] using h

theorem run_lockRelCount (ls : List (List Char)) :
    (runPass ls).lockRelCount = ls.countP (lineHits reLockRel) := by
  have h := foldl_counter (fun st => st.lockRelCount) (lineHits reLockRel)
    (fun st s => by simpa [processLine, lineHits] using line_lockRelCount st (rstrip s)) ls {}
  simpa [runPass] using h

theorem run_bestTradeSelCount (ls : List (List Char)) :
    (runPass ls).bestTradeSelCount = ls.countP (lineHits reBestTradeSel) := by
  have h := foldl_counter (fun st => st.bestTradeSelCount) (lineHits reBestTradeSel)
    (fun st s => by simpa [processLine, lineHits] using line_bestTradeSelCount st (rstrip s)) ls {}
  simpa [runPass] using h

theorem run_claimSwitchCount (ls : List (List Char)) :
    (runPass ls).claimSwitchCount = ls.countP (lineHits reClaimSwitch) := by
  have h := foldl_counter (fun st => st.claimSwitchCount) (lineHits reClaimSwitch)
    (fun st s => by simpa [processLine, lineHits] using line_claimSwitchCount st (rstrip s)) ls {}
  simpa [runPass] using h

theorem run_threatEventCount (ls : List (List Char)) :
    (runPass ls).threatEventCount = ls.countP (lineHits reThreat) := by
  have h := foldl_counter (fun st => st.threatEventCount) (lineHits reThreat)
    (fun st s => by simpa [processLine, lineHits] using line_threatEventCount st (rstrip s)) ls {}
  simpa [runPass] using h

theorem run_shipDestroyedCount (ls : List (List Char)) :
    (runPass ls).shipDestroyedCount = ls.countP (lineHits reShipDestroyed) := by
  have h := foldl_counter (fun st => st.shipDestroyedCount) (lineHits reShipDestroyed)
    (fun st s => by simpa [processLine, lineHits] using line_shipDestroyedCount st (rstrip s)) ls {}
  simpa [runPass] using h

theorem run_blockEarlyRejectCount (ls : List (List Char)) :
    (runPass ls).blockEarlyRejectCount = ls.countP (lineHits reBlockedEarlyReject) := by
  have h := foldl_counter (fun st => st.blockEarlyRejectCount) (lineHits reBlockedEarlyReject)
    (fun st s => by simpa [processLine, lineHits] using line_blockEarlyRejectCount st (rstrip s)) ls {}
  simpa [runPass] using h

theorem run_blockAuthGuardCount (ls : List (List Char)) :
    (runPass ls).blockAuthGuardCount = ls.countP (lineHits reBlockedAuthGuard) := by
  have h := foldl_counter (fun st => st.blockAuthGuardCount) (lineHits reBlockedAuthGuard)
    (fun st s => by simpa [processLine, lineHits] using line_blockAuthGuardCount st (rstrip s)) ls {}
  simpa [runPass] using h

theorem run_earlyMoneyGateCount (ls : List (List Char)) :
    (runPass ls).earlyMoneyGateCount = ls.countP (lineHits reEarlyMoneyGate) := by
  have h := foldl_counter (fun st => st.earlyMoneyGateCount) (lineHits reEarlyMoneyGate)
    (fun st s => by simpa [processLine, lineHits] using line_earlyMoneyGateCount st (rstrip s)) ls {}
  simpa [runPass] using h

theorem run_shipMoneyCapSkipCount (ls : List (List Char)) :
    (runPass ls).shipMoneyCapSkipCount = ls.countP (lineHits reShipMoneyCapSkip) := by
  have h := foldl_counter (fun st => st.shipMoneyCapSkipCount) (lineHits reShipMoneyCapSkip)
    (fun st s => by simpa [processLine, lineHits] using line_shipMoneyCapSkipCount st (rstrip s)) ls {}
  simpa [runPass] using h

theorem run_shipMoneyCapClearedCount (ls : List (List Char)) :
    (runPass ls).shipMoneyCapClearedCount = ls.countP (lineHits reShipMoneyCapCleared) := by
  have h := foldl_counter (fun st => st.shipMoneyCapClearedCount) (lineHits reShipMoneyCapCleared)
    (fun st s => by simpa [processLine, lineHits] using line_shipMoneyCapClearedCount st (rstrip s)) ls {}
  simpa [runPass] using h

theorem run_insufficientFundsWaitCount (ls : List (List Char)) :
    (runPass ls).insufficientFundsWaitCount = ls.countP (lineHits reInsufficientFundsWait) := by
  have h := foldl_counter (fun st => st.insufficientFundsWaitCount) (lineHits reInsufficientFundsWait)
    (fun st s => by simpa [processLine, lineHits] using line_insufficientFundsWaitCount st (rstrip s)) ls {}
  simpa [runPass] using h

/-- Generic fold lemma for a bounded sample buffer. -/
theorem foldl_buffer (f : AggState → List (List Char)) (q : List Char → Bool) (cap : ℕ)
    (hstep : ∀ st s, f (processLine st s) =
      if q (rstrip s) then pushCap cap (f st) (rstrip s) else f st) :
    ∀ (ls : List (List Char)) (st : AggState),
      f (List.foldl processLine st ls) =
        List.foldl (fun b x => if q x then pushCap cap b x else b) (f st) (ls.map rstrip) := by
  intro ls
  induction ls with
  | nil => intro st; simp
  | cons a t ih =>
    intro st
    rw [List.foldl_cons, ih, List.map_cons, List.foldl_cons, hstep]

/-- Folding conditional capped pushes from a not-yet-overflowing buffer
collects the qualifying entries in order and truncates at the cap. -/
theorem foldl_pushCap_take (q : List Char → Bool) (cap : ℕ) :
    ∀ (xs : List (List Char)) (buf : List (List Char)), buf.length ≤ cap →
      List.foldl (fun b x => if q x then pushCap cap b x else b) buf xs =
        (buf ++ xs.filter q).take cap := by
  intro xs
  induction xs with
  | nil =>
    intro buf hlen
    simp [List.take_of_length_le hlen]
  | cons a t ih =>
    intro buf hlen
    rw [List.foldl_cons]
    by_cases hq : q a
    · rw [if_pos hq, pushCap]
      by_cases hfull : buf.length < cap
      · rw [if_pos hfull, ih (buf ++ [a]) (by simp; omega)]
        simp [hq]
      · rw [if_neg hfull]
        have hcap : buf.length = cap := le_antisymm hlen (le_of_not_lt hfull)
        rw [ih buf hlen]
        rw [List.filter_cons_of_pos hq]
        rw [List.take_append_eq_append_take, List.take_append_eq_append_take]
        simp [hcap, List.take_of_length_le]
    · rw [if_neg hq, ih buf hlen, List.filter_cons_of_neg hq]

theorem run_errorLines (ls : List (List Char)) :
    (runPass ls).errorLines = ((ls.map rstrip).filter qualError).take 200 := by
  have h := foldl_buffer (fun st => st.errorLines) qualError 200
    (fun st s => by simpa [processLine] using line_errorLines st (rstrip s)) ls {}
  rw [runPass, h]
  exact foldl_pushCap_take qualError 200 (ls.map rstrip) [] (by simp)

theorem run_propLookupFails (ls : List (List Char)) :
    (runPass ls).propLookupFails = ((ls.map rstrip).filter qualProp).take 50 := by
  have h := foldl_buffer (fun st => st.propLookupFails) qualProp 50
    (fun st s => by simpa [processLine] using line_propLookupFails st (rstrip s)) ls {}
  rw [runPass, h]
  exact foldl_pushCap_take qualProp 50 (ls.map rstrip) [] (by simp)

theorem run_criticalLines (ls : List (List Char)) :
    (runPass ls).criticalLines = ((ls.map rstrip).filter qualCritical).take 50 := by
  have h := foldl_buffer (fun st => st.criticalLines) qualCritical 50
    (fun st s => by simpa [processLine] using line_criticalLines st (rstrip s)) ls {}
  rw [runPass, h]
  exact foldl_pushCap_take qualCritical 50 (ls.map rstrip) [] (by simp)

/-! ## Small container lemmas -/

theorem cntOf_bumpCnt (m : List (List Char × ℕ)) (q : List Char) :
    cntOf (bumpCnt m q) q = cntOf m q + 1 := by
  induction m with
  | nil => simp [bumpCnt, cntOf]
  | cons kv t ih =>
    obtain ⟨k, v⟩ := kv
    by_cases hk : k = q
    · simp [bumpCnt, cntOf, hk]
    · simp [bumpCnt, cntOf, hk, ih]

/-- Membership in the stalled-ship list is exactly "requested but no
terminal response". -/
theorem mem_stalledShips (st : AggState) (sid : List Char) :
    sid ∈ stalledShips st ↔
      sid ∈ keysOf st.shipsWithRequest ∧ sid ∉ st.shipsWithTerminal := by
  rw [stalledShips, List.mem_filter]
  simp

/-! ## Rate arithmetic -/

/-- The float comparison `order_count / request_count * 100 < k` over
exact rationals, as an integer inequality. -/
theorem rate_lt_iff (o r k : ℕ) (hr : 0 < r) :
    ((o : ℚ) / r * 100 < k) ↔ (100 * o < k * r) := by
  rw [div_mul_eq_mul_div, div_lt_iff₀ (by exact_mod_cast hr)]
  constructor
  · intro h
    have h2 : ((100 * o : ℕ) : ℚ) < ((k * r : ℕ) : ℚ) := by push_cast; linarith
    exact_mod_cast h2
  · intro h
    have h2 : ((100 * o : ℕ) : ℚ) < ((k * r : ℕ) : ℚ) := by exact_mod_cast h
    push_cast at h2
    linarith

/-! ## Claims -/

/-- A concrete early-reject insufficient-funds block line (matches
`RE_BLOCKED_EARLY_REJECT` and the mod-relevance gate). -/
def c1BlockLine : List Char :=
  ("[Scripts] 200.0 *** [GT-AI] ABC-301 BLOCKED trade (early reject) " ++
   "player.money=1000.0 Cr purchaseCost=5000.0 Cr below MinPlayerMoney threshold " ++
   "(2000.0 Cr)").toList

/-- Claim C1, counterexample: a run whose insufficient-funds block total
is 1 (inside the claimed WARN band 1–20) for which the check emits INFO,
not WARN. -/
theorem C1_claim_counterexample :
    totalFundsBlocks (runPass [c1BlockLine]) = 1 ∧
    fundsBlocksGrade (runPass [c1BlockLine]) ≠ some Grade.warn := by
  have h : fundsBlocksGrade (runPass [c1BlockLine]) = some Grade.info := rfl
  exact ⟨rfl, by rw [h]; decide⟩

/-- Claim C1 (amended): for every run, when the total number of
insufficient-funds trade blocks (early-reject plus authoritative-guard)
is between 1 and 20 inclusive the check emits INFO (not WARN); between
21 and 100 it emits WARN; and above 100 it emits FAIL. -/
theorem C1_funds_blocks_grading (lines : List (List Char)) :
    (1 ≤ totalFundsBlocks (runPass lines) → totalFundsBlocks (runPass lines) ≤ 20 →
      fundsBlocksGrade (runPass lines) = some Grade.info) ∧
    (20 < totalFundsBlocks (runPass lines) → totalFundsBlocks (runPass lines) ≤ 100 →
      fundsBlocksGrade (runPass lines) = some Grade.warn) ∧
    (100 < totalFundsBlocks (runPass lines) →
      fundsBlocksGrade (runPass lines) = some Grade.fail) := by
  refine ⟨fun h1 h2 => ?_, fun h1 h2 => ?_, fun h1 => ?_⟩ <;>
    · unfold fundsBlocksGrade
      split_ifs <;> first | rfl | omega

/-- Claim C1, witness: the single-block run is graded INFO through the
amended theorem. -/
theorem C1_funds_blocks_grading_witness :
    totalFundsBlocks (runPass [c1BlockLine]) = 1 ∧
    fundsBlocksGrade (runPass [c1BlockLine]) = some Grade.info := by
  have h1 : totalFundsBlocks (runPass [c1BlockLine]) = 1 := rfl
  exact ⟨h1, (C1_funds_blocks_grading [c1BlockLine]).1 (by rw [h1]) (by rw [h1]; decide)⟩

/-- A concrete ship-destruction event line (matches `RE_SHIP_DESTROYED`
and the mod-relevance gate). -/
def c2DestroyLine : List Char :=
  "[Scripts] 50.0 *** [GT-Threat] Ship destruction ignored: ABC-401 lost".toList

/-- Claim C2, counterexample: a run with exactly one ship-destruction
event (inside the claimed WARN band 1–10) for which the check emits
INFO, not WARN. -/
theorem C2_claim_counterexample :
    (runPass [c2DestroyLine]).shipDestroyedCount = 1 ∧
    shipDestroyedGrade (runPass [c2DestroyLine]) ≠ Grade.warn := by
  have h : shipDestroyedGrade (runPass [c2DestroyLine]) = Grade.info := rfl
  exact ⟨rfl, by rw [h]; decide⟩

/-- Claim C2 (amended): for every run, a ship-destruction event count
between 1 and 10 inclusive is graded INFO (not WARN), a count greater
than 10 is graded WARN (not FAIL), and a count of 0 is graded PASS. -/
theorem C2_ship_destruction_grading (lines : List (List Char)) :
    (1 ≤ (runPass lines).shipDestroyedCount → (runPass lines).shipDestroyedCount ≤ 10 →
      shipDestroyedGrade (runPass lines) = Grade.info) ∧
    (10 < (runPass lines).shipDestroyedCount →
      shipDestroyedGrade (runPass lines) = Grade.warn) ∧
    ((runPass lines).shipDestroyedCount = 0 →
      shipDestroyedGrade (runPass lines) = Grade.pass) := by
  refine ⟨fun h1 h2 => ?_, fun h1 => ?_, fun h1 => ?_⟩ <;>
    · unfold shipDestroyedGrade
      split_ifs <;> first | rfl | omega

/-- Claim C2, witness: the single-destruction run is graded INFO through
the amended theorem. -/
theorem C2_ship_destruction_grading_witness :
    (runPass [c2DestroyLine]).shipDestroyedCount = 1 ∧
    shipDestroyedGrade (runPass [c2DestroyLine]) = Grade.info := by
  have h1 : (runPass [c2DestroyLine]).shipDestroyedCount = 1 := rfl
  exact ⟨h1, (C2_ship_destruction_grading [c2DestroyLine]).1 (by rw [h1])
    (by rw [h1]; decide)⟩

/-- Claim C3: for every run with at least 10 trade requests, the
trade-success-rate check emits FAIL below a 10% success rate
(`100·orders < 10·requests`, i.e. `10·orders < requests`), WARN from
10% up to below 30%, and PASS from 30% up.  The rate is
`order_count / request_count * 100` over exact rationals. -/
theorem C3_trade_success_rate (lines : List (List Char))
    (h10 : 10 ≤ (runPass lines).requestCount) :
    (10 * (runPass lines).orderCount < (runPass lines).requestCount →
      tradeSuccessGrade (runPass lines) = Grade.fail) ∧
    ((runPass lines).requestCount ≤ 10 * (runPass lines).orderCount →
      10 * (runPass lines).orderCount < 3 * (runPass lines).requestCount →
      tradeSuccessGrade (runPass lines) = Grade.warn) ∧
    (3 * (runPass lines).requestCount ≤ 10 * (runPass lines).orderCount →
      tradeSuccessGrade (runPass lines) = Grade.pass) := by
  have hr : 0 < (runPass lines).requestCount := by omega
  have hlt10 := rate_lt_iff (runPass lines).orderCount (runPass lines).requestCount 10 hr
  have hlt30 := rate_lt_iff (runPass lines).orderCount (runPass lines).requestCount 30 hr
  have e1 : (((runPass lines).orderCount : ℚ) / (runPass lines).requestCount * 100 < 10 ∧
      (runPass lines).requestCount ≥ 10) ↔
      10 * (runPass lines).orderCount < (runPass lines).requestCount :=
    ⟨fun h => by have := hlt10.mp h.1; omega, fun h => ⟨hlt10.mpr (by omega), h10⟩⟩
  have e2 : (((runPass lines).orderCount : ℚ) / (runPass lines).requestCount * 100 < 30 ∧
      (runPass lines).requestCount ≥ 10) ↔
      10 * (runPass lines).orderCount < 3 * (runPass lines).requestCount :=
    ⟨fun h => by have := hlt30.mp h.1; omega, fun h => ⟨hlt30.mpr (by omega), h10⟩⟩
  have key : tradeSuccessGrade (runPass lines) =
      (if 10 * (runPass lines).orderCount < (runPass lines).requestCount then Grade.fail
       else if 10 * (runPass lines).orderCount < 3 * (runPass lines).requestCount then
         Grade.warn
       else Grade.pass) := by
    unfold tradeSuccessGrade
    rw [if_pos hr]
    simp only [e1, e2]
  refine ⟨fun h1 => ?_, fun h1 h2 => ?_, fun h1 => ?_⟩ <;>
    · rw [key]
      split_ifs <;> first | rfl | omega

/-- The scenario log of claim C3: ten trade requests, one created
order, no no-trade-found responses. -/
def c3Lines : List (List Char) :=
  List.replicate 10 "[Scripts] 10.0 *** [GT-AI] ABC-101 SENDING GT_Find_Trade".toList ++
    ["[Scripts] 11.0 *** [GT-AI] ABC-101 Created BUY trade order".toList]

/-- Claim C3, witness: 10 requests, 1 order, 0 no-trade — a 10% success
rate on at least 10 requests — is graded WARN. -/
theorem C3_trade_success_rate_witness :
    (runPass c3Lines).requestCount = 10 ∧ (runPass c3Lines).orderCount = 1 ∧
    (runPass c3Lines).noTradeCount = 0 ∧
    tradeSuccessGrade (runPass c3Lines) = Grade.warn := by
  have hreq : (runPass c3Lines).requestCount = 10 := rfl
  have hord : (runPass c3Lines).orderCount = 1 := rfl
  exact ⟨hreq, hord, rfl,
    (C3_trade_success_rate c3Lines (by rw [hreq])).2.1
      (by rw [hreq, hord]) (by rw [hreq, hord]; decide)⟩

/-- Claim C5: for every run, the stalled set is exactly the ship ids
recorded with a trade request minus those recorded with a terminal
response (order created or no-trade-found), and the stalled-ships check
emits FAIL with the stalled count when it exceeds 5 and WARN with the
count when it is between 1 and 5. -/
theorem C5_stalled_ships (lines : List (List Char)) :
    (∀ sid, sid ∈ stalledShips (runPass lines) ↔
      sid ∈ keysOf (runPass lines).shipsWithRequest ∧
        sid ∉ (runPass lines).shipsWithTerminal) ∧
    (5 < (stalledShips (runPass lines)).length →
      stalledGrade (runPass lines) = (Grade.fail, (stalledShips (runPass lines)).length)) ∧
    (1 ≤ (stalledShips (runPass lines)).length → (stalledShips (runPass lines)).length ≤ 5 →
      stalledGrade (runPass lines) = (Grade.warn, (stalledShips (runPass lines)).length)) := by
  refine ⟨fun sid => mem_stalledShips (runPass lines) sid, fun h1 => ?_, fun h1 h2 => ?_⟩ <;>
    · unfold stalledGrade
      split_ifs <;> first | rfl | omega

/-- The scenario log of claim C5: six distinct ships issue requests and
none receives a terminal response. -/
def c5Lines : List (List Char) :=
  ["[Scripts] 10.0 *** [GT-AI] ABC-101 SENDING GT_Find_Trade".toList,
   "[Scripts] 10.1 *** [GT-AI] ABC-102 SENDING GT_Find_Trade".toList,
   "[Scripts] 10.2 *** [GT-AI] ABC-103 SENDING GT_Find_Trade".toList,
   "[Scripts] 10.3 *** [GT-AI] ABC-104 SENDING GT_Find_Trade".toList,
   "[Scripts] 10.4 *** [GT-AI] ABC-105 SENDING GT_Find_Trade".toList,
   "[Scripts] 10.5 *** [GT-AI] ABC-106 SENDING GT_Find_Trade".toList]

/-- Claim C5, witness: six open requests and no terminal response give
six stalled ships and a FAIL reporting the count 6. -/
theorem C5_stalled_ships_witness :
    (stalledShips (runPass c5Lines)).length = 6 ∧
    stalledGrade (runPass c5Lines) = (Grade.fail, 6) := by
  have h6 : (stalledShips (runPass c5Lines)).length = 6 := rfl
  have hg := (C5_stalled_ships c5Lines).2.1 (by rw [h6]; decide)
  rw [h6] at hg
  exact ⟨h6, hg⟩

/-- Claim C7: a line matching the generic error tag that also matches
any pattern of the known-benign denylist is not stored (and hence not
counted) in the error category at all — processing it leaves the error
buffer unchanged. -/
theorem C7_false_error_suppression (st : AggState) (s : List Char)
    (he : reErrorLine s = true) (hf : reFalseError s = true) :
    (procStripped st s).errorLines = st.errorLines := by
  rw [line_errorLines]
  simp [qualError, he, hf]

/-- The scenario line of claim C7: an error-tagged registration notice. -/
def c7Line : List Char := "[=ERROR=] 123.45 Registered event: Foo".toList

/-- Claim C7, witness: the `Registered event` error line is suppressed
entirely — after processing it the error buffer is still empty. -/
theorem C7_false_error_suppression_witness :
    reErrorLine c7Line = true ∧ reFalseError c7Line = true ∧
    (procStripped {} c7Line).errorLines = [] := by
  refine ⟨rfl, rfl, ?_⟩
  rw [C7_false_error_suppression {} c7Line rfl rfl]

/-- Claim C9: after any number of processed lines, the error-line
buffer is exactly the first 200 qualifying stripped lines in encounter
order, the property-lookup buffer the first 50, and the critical-line
buffer the first 50 — so each buffer is bounded by its cap and overflow
is silently dropped while the rest of the state keeps aggregating. -/
theorem C9_bounded_buffers (lines : List (List Char)) :
    (runPass lines).errorLines = ((lines.map rstrip).filter qualError).take 200 ∧
    (runPass lines).propLookupFails = ((lines.map rstrip).filter qualProp).take 50 ∧
    (runPass lines).criticalLines = ((lines.map rstrip).filter qualCritical).take 50 ∧
    (runPass lines).errorLines.length ≤ 200 ∧
    (runPass lines).propLookupFails.length ≤ 50 ∧
    (runPass lines).criticalLines.length ≤ 50 := by
  refine ⟨run_errorLines lines, run_propLookupFails lines, run_criticalLines lines,
    ?_, ?_, ?_⟩
  · rw [run_errorLines lines]; exact List.length_take_le _ _
  · rw [run_propLookupFails lines]; exact List.length_take_le _ _
  · rw [run_criticalLines lines]; exact List.length_take_le _ _

/-- Claim C10: a line with no extractable timestamp, or with timestamp
exactly `0.0`, is never counted in any `recent_*` per-ship counter, and
no `recent_*` counter is incremented while the running maximum
timestamp (as updated by the current line) is still `0` — the recency
guard demands a truthy event timestamp and a positive running maximum
before the window comparison is evaluated. -/
theorem C10_recent_requires_positive_time (st : AggState) (s : List Char)
    (h : extractTs s = none ∨ (∃ t, extractTs s = some t ∧ t.toRat = 0) ∨
      (newLastTs st s).toRat = 0) :
    (procStripped st s).recentNoTrade = st.recentNoTrade ∧
    (procStripped st s).recentTimeout = st.recentTimeout ∧
    (procStripped st s).recentRejected = st.recentRejected ∧
    (procStripped st s).recentMoneyBlocked = st.recentMoneyBlocked := by
  apply line_recents_unchanged
  rcases h with hnone | ⟨t, ht, h0⟩ | hm
  · rw [hnone]; rfl
  · rw [ht]
    simp only [recentOk]
    rw [(DecNum.isZero_iff t).mpr h0]
    rfl
  · cases hts : extractTs s with
    | none => rfl
    | some t =>
      have hp : (newLastTs st s).isPos = false := by
        cases hpos : (newLastTs st s).isPos
        · rfl
        · exact absurd ((DecNum.isPos_iff _).mp hpos) (by rw [hm]; exact lt_irrefl 0)
      simp only [recentOk]
      rw [hp]
      simp

/-- The scenario line of claim C10: a no-trade event with ship id and
timestamp exactly `0.0`. -/
def c10Line : List Char := "[Scripts] 0.0 *** [GT-AI] ABC-501 GT_No_Trade_Found".toList

/-- Claim C10, witness: processing the `0.0`-timestamped event line
leaves every `recent_*` counter empty even though the line carries a
ship id and matches an event category. -/
theorem C10_recent_requires_positive_time_witness :
    extractTs c10Line = some ⟨0, 1⟩ ∧ (DecNum.mk 0 1).toRat = 0 ∧
    reNoTrade c10Line = true ∧ extract_ship_id c10Line = some "ABC-501".toList ∧
    (procStripped {} c10Line).recentNoTrade = [] ∧
    (procStripped {} c10Line).recentMoneyBlocked = [] := by
  have h0 : (DecNum.mk 0 1).toRat = 0 := by
    rw [DecNum.toRat]
    norm_num
  have h := C10_recent_requires_positive_time {} c10Line
    (Or.inr (Or.inl ⟨⟨0, 1⟩, rfl, h0⟩))
  refine ⟨rfl, h0, rfl, rfl, ?_, ?_⟩
  · rw [h.1]
  · rw [h.2.2.2]

/-- The recency guard in terms of rational timestamp values: a truthy
(nonzero) event time, a positive running maximum `m`, and
`t ≥ m - 300`. -/
theorem recentOk_iff (t m : DecNum) :
    recentOk (some t) m = true ↔
      (t.toRat ≠ 0 ∧ 0 < m.toRat ∧ m.toRat - 300 ≤ t.toRat) := by
  have hle := DecNum.le_iff (m.subN 300) t
  rw [DecNum.subN_toRat] at hle
  simp only [recentOk, Bool.and_eq_true, Bool.not_eq_true']
  constructor
  · rintro ⟨⟨h1, h2⟩, h3⟩
    refine ⟨fun hc => ?_, (DecNum.isPos_iff m).mp h2, hle.mp h3⟩
    rw [(DecNum.isZero_iff t).mpr hc] at h1
    exact Bool.true_eq_false.mp h1
  · rintro ⟨h1, h2, h3⟩
    refine ⟨⟨?_, (DecNum.isPos_iff m).mpr h2⟩, hle.mpr h3⟩
    cases hz : t.isZero
    · rfl
    · exact absurd ((DecNum.isZero_iff t).mp hz) h1

/-- The event line of claim C4's counterexample: a no-trade response
with ship id and timestamp exactly `0.0`. -/
def c4ZeroLine : List Char := "[Scripts] 0.0 *** [GT-AI] ABC-123 GT_No_Trade_Found".toList

/-- Claim C4, counterexample: starting from the initial state, this
event line carries a ship id and a timestamp `t = 0` with
`t ≥ M - 300` for the running maximum `M` at the moment it is processed
— yet it is not counted in the corresponding `recent_*` counter, so
"counted exactly when `t ≥ M - 300`" is false. -/
theorem C4_claim_counterexample :
    reNoTrade c4ZeroLine = true ∧
    extract_ship_id c4ZeroLine = some "ABC-123".toList ∧
    extractTs c4ZeroLine = some ⟨0, 1⟩ ∧
    (newLastTs {} c4ZeroLine).toRat - 300 ≤ (DecNum.mk 0 1).toRat ∧
    cntOf (procStripped {} c4ZeroLine).recentNoTrade "ABC-123".toList = 0 := by
  have hM : newLastTs {} c4ZeroLine = ⟨0, 1⟩ := rfl
  refine ⟨rfl, rfl, rfl, ?_, rfl⟩
  rw [hM, DecNum.toRat]
  norm_num

/-- Claim C4 (amended): for every processed event line carrying a ship
id and an extracted timestamp `t`, with `M` the running maximum
timestamp at the moment the line is processed (already including the
line's own `t`), the line is counted in the corresponding `recent_*`
per-ship counter exactly when `t` is truthy (nonzero), `M` is positive,
and `t ≥ M - 300` — an inclusive lower bound, so a line with
`t = M - 300` exactly is included and one with `t = M - 300.0001` is
excluded. -/
theorem C4_recent_window_guard (st : AggState) (s : List Char) (sid : List Char) (t : DecNum)
    (hg : gateGT s = true) (hsid : extract_ship_id s = some sid)
    (hts : extractTs s = some t) :
    (reNoTrade s = true →
      cntOf (procStripped st s).recentNoTrade sid =
        cntOf st.recentNoTrade sid +
          (if t.toRat ≠ 0 ∧ 0 < (st.lastTs.dmax t).toRat ∧
              (st.lastTs.dmax t).toRat - 300 ≤ t.toRat then 1 else 0)) ∧
    (reTimeout s = true →
      cntOf (procStripped st s).recentTimeout sid =
        cntOf st.recentTimeout sid +
          (if t.toRat ≠ 0 ∧ 0 < (st.lastTs.dmax t).toRat ∧
              (st.lastTs.dmax t).toRat - 300 ≤ t.toRat then 1 else 0)) ∧
    (reAllRejected s = true →
      cntOf (procStripped st s).recentRejected sid =
        cntOf st.recentRejected sid +
          (if t.toRat ≠ 0 ∧ 0 < (st.lastTs.dmax t).toRat ∧
              (st.lastTs.dmax t).toRat - 300 ≤ t.toRat then 1 else 0)) := by
  have hnew : newLastTs st s = st.lastTs.dmax t := by
    unfold newLastTs
    rw [hts]
  have hguard :
      recentOk (extractTs s) (newLastTs st s) = true ↔
        (t.toRat ≠ 0 ∧ 0 < (st.lastTs.dmax t).toRat ∧
          (st.lastTs.dmax t).toRat - 300 ≤ t.toRat) := by
    rw [hts, hnew]
    exact recentOk_iff t (st.lastTs.dmax t)
  refine ⟨fun hev => ?_, fun hev => ?_, fun hev => ?_⟩
  · rw [line_recentNoTrade, hg, hev, hsid]
    by_cases hok : recentOk (extractTs s) (newLastTs st s) = true
    · simp only [hok, if_pos (hguard.mp hok), if_true]
      simp [cntOf_bumpCnt]
    · rw [Bool.not_eq_true] at hok
      simp only [hok, if_neg (fun hc => by rw [hguard.mpr hc] at hok; cases hok),
        Bool.false_eq_true, if_false, Nat.add_zero]
      simp
  · rw [line_recentTimeout, hg, hev, hsid]
    by_cases hok : recentOk (extractTs s) (newLastTs st s) = true
    · simp only [hok, if_pos (hguard.mp hok), if_true]
      simp [cntOf_bumpCnt]
    · rw [Bool.not_eq_true] at hok
      simp only [hok, if_neg (fun hc => by rw [hguard.mpr hc] at hok; cases hok),
        Bool.false_eq_true, if_false, Nat.add_zero]
      simp
  · rw [line_recentRejected, hg, hev, hsid]
    by_cases hok : recentOk (extractTs s) (newLastTs st s) = true
    · simp only [hok, if_pos (hguard.mp hok), if_true]
      simp [cntOf_bumpCnt]
    · rw [Bool.not_eq_true] at hok
      simp only [hok, if_neg (fun hc => by rw [hguard.mpr hc] at hok; cases hok),
        Bool.false_eq_true, if_false, Nat.add_zero]
      simp

/-- The event line of claim C4's witness: a no-trade response with ship
id at game time `100.0`. -/
def c4Line : List Char := "[Scripts] 100.0 *** [GT-AI] ABC-123 GT_No_Trade_Found".toList

/-- The prior state of claim C4's witness: the running maximum
timestamp is already `400.0`. -/
def c4St : AggState := { lastTs := ⟨4000, 1⟩ }

/-- Claim C4, witness: with running maximum `M = 400.0` a line at
`t = 100.0 = M - 300` exactly is counted (inclusive lower bound), and
with running maximum `400.0001` the same line, now at
`t = M - 300.0001`, is not. -/
theorem C4_recent_window_guard_witness :
    (c4St.lastTs.dmax ⟨1000, 1⟩).toRat - 300 = (DecNum.mk 1000 1).toRat ∧
    cntOf (procStripped c4St c4Line).recentNoTrade "ABC-123".toList = 1 ∧
    (DecNum.mk 4000001 4).toRat - (300.0001 : ℚ) = (DecNum.mk 1000 1).toRat ∧
    cntOf (procStripped { lastTs := ⟨4000001, 4⟩ } c4Line).recentNoTrade
      "ABC-123".toList = 0 := by
  have hdmax : c4St.lastTs.dmax ⟨1000, 1⟩ = (⟨4000, 1⟩ : DecNum) := rfl
  have hbd : (c4St.lastTs.dmax ⟨1000, 1⟩).toRat - 300 = (DecNum.mk 1000 1).toRat := by
    rw [hdmax, DecNum.toRat, DecNum.toRat]
    norm_num
  have h := (C4_recent_window_guard c4St c4Line "ABC-123".toList ⟨1000, 1⟩
    rfl rfl rfl).1 rfl
  have hcond : (DecNum.mk 1000 1).toRat ≠ 0 ∧
      0 < (c4St.lastTs.dmax ⟨1000, 1⟩).toRat ∧
      (c4St.lastTs.dmax ⟨1000, 1⟩).toRat - 300 ≤ (DecNum.mk 1000 1).toRat := by
    refine ⟨by rw [DecNum.toRat]; norm_num, by rw [hdmax, DecNum.toRat]; norm_num,
      by rw [hbd]⟩
  refine ⟨hbd, ?_, ?_, rfl⟩
  · rw [h, if_pos hcond]
    rfl
  · rw [DecNum.toRat, DecNum.toRat]
    norm_num

/-- The event line of claim C6's order-sensitivity part: a no-trade
response at game time `100.0`. -/
def c6EventLine : List Char := "[Scripts] 100.0 *** [GT-AI] ABC-777 GT_No_Trade_Found".toList

/-- The maximum-timestamp line of claim C6's order-sensitivity part: a
bare timestamped line at game time `500.0`. -/
def c6MaxLine : List Char := "[Scripts] 500.0 *** frame marker".toList

/-- Claim C6: every purely category-keyed scalar counter of the pass is
invariant under permutation of the input lines (each is a `countP` of a
per-line predicate), whereas the `recent_*` per-ship counters are
order-sensitive: moving the maximum-timestamp line before the event
line changes `recent_no_trade` from 1 to 0 on a permuted input. -/
theorem C6_order_independence (l1 l2 : List (List Char)) (hp : l1.Perm l2) :
    (     (runPass l1).requestCount = (runPass l2).requestCount ∧
     (runPass l1).orderCount = (runPass l2).orderCount ∧
     (runPass l1).noTradeCount = (runPass l2).noTradeCount ∧
     (runPass l1).timeoutCount = (runPass l2).timeoutCount ∧
     (runPass l1).allRejectedCount = (runPass l2).allRejectedCount ∧
     (runPass l1).queueBusyCount = (runPass l2).queueBusyCount ∧
     (runPass l1).homeDenyCount = (runPass l2).homeDenyCount ∧
     (runPass l1).lockAcqCount = (runPass l2).lockAcqCount ∧
     (runPass l1).lockRelCount = (runPass l2).lockRelCount ∧
     (runPass l1).bestTradeSelCount = (runPass l2).bestTradeSelCount ∧
     (runPass l1).claimSwitchCount = (runPass l2).claimSwitchCount ∧
     (runPass l1).threatEventCount = (runPass l2).threatEventCount ∧
     (runPass l1).shipDestroyedCount = (runPass l2).shipDestroyedCount ∧
     (runPass l1).blockEarlyRejectCount = (runPass l2).blockEarlyRejectCount ∧
     (runPass l1).blockAuthGuardCount = (runPass l2).blockAuthGuardCount ∧
     (runPass l1).earlyMoneyGateCount = (runPass l2).earlyMoneyGateCount ∧
     (runPass l1).shipMoneyCapSkipCount = (runPass l2).shipMoneyCapSkipCount ∧
     (runPass l1).shipMoneyCapClearedCount = (runPass l2).shipMoneyCapClearedCount ∧
     (runPass l1).insufficientFundsWaitCount = (runPass l2).insufficientFundsWaitCount) ∧
    (([c6EventLine, c6MaxLine] : List (List Char)).Perm [c6MaxLine, c6EventLine] ∧
     cntOf (runPass [c6EventLine, c6MaxLine]).recentNoTrade "ABC-777".toList = 1 ∧
     cntOf (runPass [c6MaxLine, c6EventLine]).recentNoTrade "ABC-777".toList = 0) := by
  refine ⟨⟨?_, ?_, ?_, ?_, ?_, ?_, ?_, ?_, ?_, ?_, ?_, ?_, ?_, ?_, ?_, ?_, ?_, ?_, ?_⟩, List.Perm.swap _ _ _, rfl, rfl⟩ <;>
    · simp only [run_requestCount, run_orderCount, run_noTradeCount, run_timeoutCount, run_allRejectedCount, run_queueBusyCount, run_homeDenyCount, run_lockAcqCount, run_lockRelCount, run_bestTradeSelCount, run_claimSwitchCount, run_threatEventCount, run_shipDestroyedCount, run_blockEarlyRejectCount, run_blockAuthGuardCount, run_earlyMoneyGateCount, run_shipMoneyCapSkipCount, run_shipMoneyCapClearedCount, run_insufficientFundsWaitCount]
      exact hp.countP_eq _

/-- Claim C6, witness: on the concrete permuted pair, the scalar
no-trade counter agrees while the recent no-trade counter differs. -/
theorem C6_order_independence_witness :
    (runPass [c6EventLine, c6MaxLine]).noTradeCount =
      (runPass [c6MaxLine, c6EventLine]).noTradeCount ∧
    cntOf (runPass [c6EventLine, c6MaxLine]).recentNoTrade "ABC-777".toList ≠
      cntOf (runPass [c6MaxLine, c6EventLine]).recentNoTrade "ABC-777".toList := by
  have h := C6_order_independence [c6EventLine, c6MaxLine] [c6MaxLine, c6EventLine]
    (List.Perm.swap _ _ _)
  refine ⟨h.1.2.2.1, ?_⟩
  rw [h.2.2.1, h.2.2.2]
  decide

/-- Claim C8: `extract_ship_id` returns the capture of the first
matching pattern in the fixed priority order mod-namespace-tagged,
parenthesized, `Ship=` attribute, bare; it returns a ship id exactly
when at least one of the four patterns matches. -/
theorem C8_extract_ship_id_priority :
    (∀ s, (extract_ship_id s).isSome ↔
      ((searchShipGtai s).isSome ∨ (searchShipParen s).isSome ∨
        (searchShipAttr s).isSome ∨ (searchShipBare false s).isSome)) ∧
    (∀ s v, searchShipGtai s = some v → extract_ship_id s = some v) ∧
    (∀ s v, searchShipGtai s = none → searchShipParen s = some v →
      extract_ship_id s = some v) ∧
    (∀ s v, searchShipGtai s = none → searchShipParen s = none →
      searchShipAttr s = some v → extract_ship_id s = some v) ∧
    (∀ s v, searchShipGtai s = none → searchShipParen s = none → searchShipAttr s = none →
      searchShipBare false s = some v → extract_ship_id s = some v) := by
  refine ⟨fun s => ?_, fun s v h1 => ?_, fun s v h1 h2 => ?_, fun s v h1 h2 h3 => ?_,
    fun s v h1 h2 h3 h4 => ?_⟩
  · cases hA : searchShipGtai s <;> cases hB : searchShipParen s <;>
      cases hC : searchShipAttr s <;> cases hD : searchShipBare false s <;>
      simp [extract_ship_id, hA, hB, hC, hD]
  · simp [extract_ship_id, h1]
  · simp [extract_ship_id, h1, h2]
  · simp [extract_ship_id, h1, h2, h3]
  · simp [extract_ship_id, h1, h2, h3, h4]

/-- The scenario line of claim C8's witness: the parenthesized and
`Ship=` forms are both present with different ids (and a bare id too);
the parenthesized capture wins because the tagged form is absent. -/
def c8Line : List Char := "[GT-Fleet] claim update (XYZ-222) Ship=AAA-111 near BBB-333".toList

/-- Claim C8, witness: priority order on a line with several candidate
ids, and the all-patterns-fail case returning none. -/
theorem C8_extract_ship_id_priority_witness :
    searchShipGtai c8Line = none ∧
    searchShipParen c8Line = some "XYZ-222".toList ∧
    searchShipAttr c8Line = some "AAA-111".toList ∧
    extract_ship_id c8Line = some "XYZ-222".toList ∧
    extract_ship_id "no ships here".toList = none :=
  ⟨rfl, rfl, rfl, C8_extract_ship_id_priority.2.2.1 c8Line "XYZ-222".toList rfl rfl, rfl⟩
